import Mathlib

/-!
Shallow embedding of `src/excel_fastmcp_server.py` (class `ExcelFastMCPServer`).

The server's handlers are modelled as pure functions over an explicit
filesystem state `FS` holding the saved workbooks by path together with the
set of directories that exist (`os.makedirs` at line 755 creates a path's
parent directory and raises on a bare filename; `workbook.save` needs the
parent directory to exist).  Python's dynamically
typed scalar values are the inductive `PyVal`; Python exceptions are the
inductive `PyErr`; each handler returns the new filesystem together with an
`Outcome`, whose `err` constructor carries both the caught exception and the
exact JSON error envelope the handler serialises (the dict literal of its
`except` block).  The primitives of the external document library (openpyxl)
that the handlers call — coordinate parsing, column letters, workbook/sheet
objects and cell access — are modelled at the granularity the handlers use
them.
-/

/-- A Python scalar value as accepted/produced by the handlers. -/
inductive PyVal where
  | pyNone : PyVal
  | pyBool (b : Bool) : PyVal
  | pyInt (n : Int) : PyVal
  | pyFloat (q : ℚ) : PyVal
  | pyStr (s : String) : PyVal
  | pyDate (iso : String) : PyVal
deriving DecidableEq, Repr

/-- A JSON scalar as produced by `json.dumps` on the payload fields. -/
inductive JVal where
  | null : JVal
  | s (v : String) : JVal
  | num (v : ℚ) : JVal
  | b (v : Bool) : JVal
deriving DecidableEq, Repr

/-- The Python exceptions that the modelled code paths can raise.
`keyError` keeps the missing sheet name and the available sheet names
structurally (the source builds its message from exactly these at line 781).
`wrappedException` is the generic `Exception` re-raised at line 785 of
`_get_workbook_and_sheet`. -/
inductive PyErr where
  | valueError (msg : String) : PyErr
  | keyError (sheet : String) (available : List String) : PyErr
  | indexError : PyErr
  | typeError (msg : String) : PyErr
  | attributeError (msg : String) : PyErr
  | fileNotFoundError (msg : String) : PyErr
  | fileExistsError (msg : String) : PyErr
  | cellCoordErr (msg : String) : PyErr
  | wrappedException (inner : PyErr) : PyErr
deriving DecidableEq, Repr

/-- `type(e).__name__` for the modelled exceptions. -/
def errType : PyErr → String
  | .valueError _ => "ValueError"
  | .keyError _ _ => "KeyError"
  | .indexError => "IndexError"
  | .typeError _ => "TypeError"
  | .attributeError _ => "AttributeError"
  | .fileNotFoundError _ => "FileNotFoundError"
  | .fileExistsError _ => "FileExistsError"
  | .cellCoordErr _ => "CellCoordinatesException"
  | .wrappedException _ => "Exception"

/-- Python `repr` of a list of strings, as it appears inside f-strings
(`['Sheet1', 'Data']`). -/
def pyReprStrList (xs : List String) : String :=
  "[" ++ String.intercalate ", " (xs.map (fun s => "'" ++ s ++ "'")) ++ "]"

/-- `str(e)` for the modelled exceptions.  `str` of a `KeyError` is the
`repr` of its argument, hence the surrounding double quotes. -/
def errMsg : PyErr → String
  | .valueError m => m
  | .keyError sn avail =>
      "\"Sheet '" ++ sn ++ "' not found. Available sheets: " ++
        pyReprStrList avail ++ "\""
  | .indexError => "list index out of range"
  | .typeError m => m
  | .attributeError m => m
  | .fileNotFoundError m => m
  | .fileExistsError m => m
  | .cellCoordErr m => m
  | .wrappedException inner => "Error in _get_workbook_and_sheet: " ++ errMsg inner

/-- Python truthiness of the string values the handlers test with `if x:`. -/
def truthyStr : Option String → Bool
  | none => false
  | some s => s ≠ ""

def isUpperAlpha (c : Char) : Bool := 'A' ≤ c ∧ c ≤ 'Z'

def isAsciiDigit (c : Char) : Bool := '0' ≤ c ∧ c ≤ '9'

/-- Decimal decoding of a digit run (the regexes guarantee digits only). -/
def listToNat (cs : List Char) : Nat :=
  cs.foldl (fun n c => n * 10 + (c.toNat - 48)) 0

def hasColon (s : String) : Bool := s.toList.any (· = ':')

def colonSplitAux : List Char → List Char → List (List Char)
  | [], acc => [acc.reverse]
  | c :: rest, acc =>
      if c = ':' then acc.reverse :: colonSplitAux rest []
      else colonSplitAux rest (c :: acc)

/-- Python `s.split(':')`. -/
def colonSplit (s : String) : List String :=
  (colonSplitAux s.toList []).map String.mk

/-- Python `s.lower()` (ASCII). -/
def pyLower (s : String) : String := String.mk (s.toList.map Char.toLower)

def isPySpace (c : Char) : Bool :=
  c = ' ' ∨ c = '\t' ∨ c = '\n' ∨ c = '\r' ∨ c = '\x0b' ∨ c = '\x0c'

/-- Python `s.strip()`. -/
def pyStrip (s : String) : String :=
  String.mk (((s.toList.dropWhile isPySpace).reverse.dropWhile isPySpace).reverse)

/-- Python `s.replace('#', '')`. -/
def stripHash (s : String) : String :=
  String.mk (s.toList.filter (fun c => ¬ c = '#'))

def listContainsSub (needle : List Char) : List Char → Bool
  | [] => needle.isEmpty
  | c :: t => needle.isPrefixOf (c :: t) || listContainsSub needle t

/-- Decode a run of column letters as base-26 with A = 1 (openpyxl's
column-name cache covers exactly "A".."ZZZ", i.e. 1..18278). -/
def colIndexOfLetters (cs : List Char) : Nat :=
  cs.foldl (fun acc c => acc * 26 + (c.toNat - 'A'.toNat + 1)) 0

/-- Helper for `get_column_letter`: peel base-26 digits (A = 1, no zero
letter) from the index.  The first argument is fuel; starting it at the
index itself always suffices, because the index shrinks at every step. -/
def colLettersGo : Nat → Nat → List Char → List Char
  | _, 0, acc => acc
  | 0, _ + 1, acc => acc
  | fuel + 1, n + 1, acc => colLettersGo fuel (n / 26) (Char.ofNat (65 + n % 26) :: acc)

def colLettersAux (n : Nat) (acc : List Char) : List Char :=
  colLettersGo n n acc

/-- openpyxl `get_column_letter`: valid for 1..18278, otherwise raises. -/
def get_column_letter (idx : Nat) : Except PyErr String :=
  if 1 ≤ idx ∧ idx ≤ 18278 then
    .ok (String.mk (colLettersAux idx []))
  else
    .error (.valueError ("Invalid column index " ++ toString idx))

/-- openpyxl `column_index_from_string`.  It immediately calls `.upper()` on
its argument, so a non-string argument (as produced by the swapped tuple
unpacking in `write_data_to_excel`) raises `AttributeError`; a string that is
not a cached column name ("A".."ZZZ") raises `ValueError`. -/
def column_index_from_string : PyVal → Except PyErr Nat
  | .pyStr s =>
      let cs := s.toList.map Char.toUpper
      if cs ≠ [] ∧ cs.length ≤ 3 ∧ cs.all isUpperAlpha then
        .ok (colIndexOfLetters cs)
      else
        .error (.valueError (s ++ " is not a valid column name"))
  | .pyInt _ =>
      .error (.attributeError "'int' object has no attribute 'upper'")
  | _ => .error (.attributeError "object has no attribute 'upper'")

/-- openpyxl `coordinate_from_string`: uppercases, matches
`[$]?[A-Za-z]{1,3}[$]?[0-9]+`, rejects row 0, and returns the pair
`(column letters, row)` — column FIRST, row second (the source file's own
comment at line 94 records this). -/
def coordinate_from_string (s : String) : Except PyErr (String × Nat) :=
  let cs := s.toList.map Char.toUpper
  let cs := if cs.head? = some '$' then cs.tail else cs
  let letters := cs.takeWhile isUpperAlpha
  let rest := cs.dropWhile isUpperAlpha
  let rest := if rest.head? = some '$' then rest.tail else rest
  if letters ≠ [] ∧ letters.length ≤ 3 ∧ rest ≠ [] ∧ rest.all isAsciiDigit then
    let row := listToNat rest
    if row = 0 then
      .error (.cellCoordErr ("There is no row 0 (" ++ s ++ ")"))
    else
      .ok (String.mk letters, row)
  else
    .error (.cellCoordErr ("Invalid cell coordinates (" ++ s ++ ")"))

/-- One side of a range string as parsed by openpyxl `range_boundaries`:
1..3 letters followed by digits; row 0 is allowed here (it only fails later
when a cell is materialised).  Returns `(row, column index)`. -/
def rangeSideParse (s : String) : Except PyErr (Nat × Nat) :=
  let cs := s.toList
  let letters := cs.takeWhile isUpperAlpha
  let rest := cs.dropWhile isUpperAlpha
  if letters ≠ [] ∧ letters.length ≤ 3 ∧ rest ≠ [] ∧ rest.all isAsciiDigit then
    .ok (listToNat rest, colIndexOfLetters letters)
  else
    .error (.valueError (s ++ " is not a valid coordinate or range"))

/-- The server's own cell-address validation, line 167:
`re.match(r'^[A-Z]+[0-9]+$', start_cell)`.  `re.match` with a `$` anchor also
accepts a single trailing newline, and there is NO check that the numeric
part is nonzero — "A0" passes. -/
def pyMatchAddr (s : String) : Bool :=
  let cs := s.toList
  let cs := if cs.getLast? = some '\n' then cs.dropLast else cs
  let letters := cs.takeWhile isUpperAlpha
  let rest := cs.dropWhile isUpperAlpha
  letters ≠ [] ∧ rest ≠ [] ∧ rest.all isAsciiDigit

/-- The address-validation rule as the specification words it (§4.1/§8):
the regex must match AND the numeric part must be nonzero.  Stated only to
be compared with the source's `pyMatchAddr`. -/
def specAddrValid (s : String) : Bool :=
  let cs := s.toList
  let letters := cs.takeWhile isUpperAlpha
  let rest := cs.dropWhile isUpperAlpha
  letters ≠ [] ∧ rest ≠ [] ∧ rest.all isAsciiDigit ∧ listToNat rest ≠ 0

/-- The range validation of `read_excel`, line 62:
`re.match(r'^[A-Z]+[0-9]+:[A-Z]+[0-9]+$|^[A-Z]+[0-9]+$', range)`. -/
def pyMatchRange (s : String) : Bool :=
  let cs := s.toList
  let cs := if cs.getLast? = some '\n' then cs.dropLast else cs
  let onePart : List Char → Bool := fun l =>
    let letters := l.takeWhile isUpperAlpha
    let rest := l.dropWhile isUpperAlpha
    letters ≠ [] ∧ rest ≠ [] ∧ rest.all isAsciiDigit
  match colonSplitAux cs [] with
  | [a] => onePart a
  | [a, b] => onePart a ∧ onePart b
  | _ => false

/-- The file-extension allow-list check of lines 56 and 163:
`file_path.lower().endswith(('.xlsx', '.xls', '.xlsm'))`. -/
def extOk (file_path : String) : Bool :=
  let lo := file_path.toList.map Char.toLower
  ".xlsx".toList.isSuffixOf lo ∨ ".xls".toList.isSuffixOf lo ∨
    ".xlsm".toList.isSuffixOf lo

/-- `str(value)` for the scalar values, as used for width measuring and
`find_cell_by_value`.  Python's float repr is approximated (integral floats
print with ".0"); no claim observes the exact rendering of non-integral
floats. -/
def pyStrOf : PyVal → String
  | .pyNone => "None"
  | .pyBool b => if b then "True" else "False"
  | .pyInt n => toString n
  | .pyFloat q => if q.den = 1 then toString q.num ++ ".0" else toString q
  | .pyStr s => s
  | .pyDate iso => iso

/-- Python truthiness of a cell value (`if r.value:`). -/
def pyTruthy : PyVal → Bool
  | .pyNone => false
  | .pyBool b => b
  | .pyInt n => n ≠ 0
  | .pyFloat q => q ≠ 0
  | .pyStr s => s ≠ ""
  | .pyDate _ => true

/-- `type(v).__name__` for scalar values. -/
def pyTypeName : PyVal → String
  | .pyNone => "NoneType"
  | .pyBool _ => "bool"
  | .pyInt _ => "int"
  | .pyFloat _ => "float"
  | .pyStr _ => "str"
  | .pyDate _ => "datetime"

/-- JSON encoding of a scalar (`json.dumps` behaviour on the values that can
reach it; a `pyDate` reaching a `json.dumps` without `default=str` raises,
which the handlers model with an explicit guard). -/
def jsonOfPy : PyVal → JVal
  | .pyNone => .null
  | .pyBool b => .b b
  | .pyInt n => .num (n : ℚ)
  | .pyFloat q => .num q
  | .pyStr s => .s s
  | .pyDate iso => .s iso

def isPyDate : PyVal → Bool
  | .pyDate _ => true
  | _ => false

/-- The `cell.value if cell.value is not None else ""` idiom (lines 70, 72,
76, 114): `None` becomes the empty string, everything else passes through. -/
def cellPyRender : PyVal → PyVal
  | .pyNone => .pyStr ""
  | v => v

/-- Style attributes of a cell, at the granularity the handlers touch them.
Fields default to openpyxl's defaults for a fresh cell. -/
structure PyFont where
  bold : Option Bool := none
  italic : Option Bool := none
  underline : Option String := none
  size : Option ℚ := some 11
  color : Option String := none
deriving DecidableEq, Repr

structure PyFill where
  fillType : Option String := none
  startColor : Option String := none
deriving DecidableEq, Repr

structure PySide where
  style : Option String := none
  color : Option String := none
deriving DecidableEq, Repr

structure PyBorder where
  left : Option PySide := none
  right : Option PySide := none
  top : Option PySide := none
  bottom : Option PySide := none
deriving DecidableEq, Repr

structure PyAlignment where
  horizontal : Option String := none
  wrapText : Bool := false
deriving DecidableEq, Repr

/-- One materialised cell of a worksheet.  openpyxl materialises a cell (and
it then counts towards the sheet's dimensions) as soon as `ws.cell(...)` or a
subscript touches it, even if no value is assigned. -/
structure CellData where
  value : PyVal := .pyNone
  font : PyFont := {}
  fill : PyFill := {}
  border : PyBorder := {}
  alignment : PyAlignment := {}
  numberFormat : String := "General"
  hasStyle : Bool := false
deriving DecidableEq, Repr

/-- A worksheet: its title, its materialised cells keyed by (row, column)
(both 1-based), column widths, merged ranges and tables. -/
structure Sheet where
  name : String
  cells : List ((Nat × Nat) × CellData) := []
  colWidths : List (String × ℚ) := []
  merged : List String := []
  tables : List String := []
deriving DecidableEq, Repr

def emptySheet (n : String) : Sheet := { name := n }

def cellsFind : List ((Nat × Nat) × CellData) → Nat × Nat → Option CellData
  | [], _ => none
  | (k, cd) :: rest, key => if k = key then some cd else cellsFind rest key

/-- Replace in place, or append (mirrors dict insertion order of `_cells`). -/
def cellsSet : List ((Nat × Nat) × CellData) → Nat × Nat → CellData →
    List ((Nat × Nat) × CellData)
  | [], key, cd => [(key, cd)]
  | (k, cd') :: rest, key, cd =>
      if k = key then (key, cd) :: rest else (k, cd') :: cellsSet rest key cd

def Sheet.getCell? (sh : Sheet) (r c : Nat) : Option CellData :=
  cellsFind sh.cells (r, c)

/-- `ws.cell(row=r, column=c)` materialisation plus a mutation of the cell. -/
def Sheet.updCell (sh : Sheet) (r c : Nat) (f : CellData → CellData) : Sheet :=
  { sh with cells := cellsSet sh.cells (r, c) (f ((sh.getCell? r c).getD {})) }

/-- Materialise a cell without assigning anything (a bare `ws.cell(...)` or
subscript read). -/
def Sheet.touchCell (sh : Sheet) (r c : Nat) : Sheet := sh.updCell r c id

/-- `cell.value` of a (possibly unmaterialised) cell: `None` when absent. -/
def Sheet.valueAt (sh : Sheet) (r c : Nat) : PyVal :=
  ((sh.getCell? r c).map (·.value)).getD .pyNone

def natListMin : List Nat → Nat
  | [] => 1
  | x :: xs => xs.foldl Nat.min x

def natListMax : List Nat → Nat
  | [] => 1
  | x :: xs => xs.foldl Nat.max x

/-- `ws.min_row` etc.: extrema over the materialised cells, 1 on an empty
sheet. -/
def Sheet.minRow (sh : Sheet) : Nat := natListMin (sh.cells.map (fun kv => kv.1.1))

def Sheet.maxRow (sh : Sheet) : Nat := natListMax (sh.cells.map (fun kv => kv.1.1))

def Sheet.minCol (sh : Sheet) : Nat := natListMin (sh.cells.map (fun kv => kv.1.2))

def Sheet.maxCol (sh : Sheet) : Nat := natListMax (sh.cells.map (fun kv => kv.1.2))

/-- A workbook: ordered sheets plus the active-sheet index (0 for fresh and
loaded workbooks alike in the scenarios modelled here). -/
structure Workbook where
  sheets : List Sheet
  activeIdx : Nat := 0
deriving DecidableEq, Repr

def Workbook.sheetnames (wb : Workbook) : List String := wb.sheets.map Sheet.name

def sheetIdxOf : List Sheet → String → Option Nat
  | [], _ => none
  | s :: rest, sn => if s.name = sn then some 0 else (sheetIdxOf rest sn).map (· + 1)

def Workbook.idxOf (wb : Workbook) (sn : String) : Option Nat :=
  sheetIdxOf wb.sheets sn

def listModify : List α → Nat → (α → α) → List α
  | [], _, _ => []
  | x :: xs, 0, f => f x :: xs
  | x :: xs, n + 1, f => x :: listModify xs n f

def listInsertAt : List α → Nat → α → List α
  | xs, 0, a => a :: xs
  | [], _ + 1, a => [a]
  | x :: xs, n + 1, a => x :: listInsertAt xs n a

def Workbook.updateSheet (wb : Workbook) (i : Nat) (f : Sheet → Sheet) : Workbook :=
  { wb with sheets := listModify wb.sheets i f }

/-- `workbook.create_sheet(name)` (append).  openpyxl's renaming of duplicate
titles is not modelled; every modelled call site either checks for the title
first or runs in a workbook without it. -/
def Workbook.appendSheet (wb : Workbook) (sn : String) : Workbook :=
  { wb with sheets := wb.sheets ++ [emptySheet sn] }

/-- `workbook.create_sheet(name, index=i)`. -/
def Workbook.insertSheetAt (wb : Workbook) (sn : String) (i : Nat) : Workbook :=
  { wb with sheets := listInsertAt wb.sheets i (emptySheet sn) }

/-- `workbook.active` (`None` when there is no sheet at the index). -/
def Workbook.active? (wb : Workbook) : Option Sheet := wb.sheets.get? wb.activeIdx

/-- `openpyxl.Workbook()`: a single default sheet titled "Sheet". -/
def freshWorkbook : Workbook := { sheets := [emptySheet "Sheet"] }

/-- `workbook.remove(workbook.active)`. -/
def Workbook.removeActive (wb : Workbook) : Workbook :=
  { wb with sheets := wb.sheets.eraseIdx wb.activeIdx }

/-- `workbook.remove(workbook[sheet_name])`. -/
def Workbook.removeByName (wb : Workbook) (sn : String) : Workbook :=
  match wb.idxOf sn with
  | some i => { wb with sheets := wb.sheets.eraseIdx i }
  | none => wb

/-- The filesystem: saved workbooks by path, together with the directories
that exist.  `os.makedirs` at line 755 creates a path's parent directory
(and raises on a bare filename, whose `os.path.dirname` is the empty
string); `workbook.save` in `create_workbook`, which performs no makedirs,
needs the parent directory to exist. -/
structure FS where
  files : List (String × Workbook) := []
  dirs : List String := []
deriving DecidableEq, Repr

def filesLookup : List (String × Workbook) → String → Option Workbook
  | [], _ => none
  | (p, wb) :: rest, fp => if p = fp then some wb else filesLookup rest fp

def fsLookup (fs : FS) (fp : String) : Option Workbook :=
  filesLookup fs.files fp

def filesSet : List (String × Workbook) → String → Workbook →
    List (String × Workbook)
  | [], fp, wb => [(fp, wb)]
  | (p, wb') :: rest, fp, wb =>
      if p = fp then (fp, wb) :: rest else (p, wb') :: filesSet rest fp wb

/-- `workbook.save(file_path)` in a handler that already ensured the parent
directory via the line-755 makedirs. -/
def fsSet (fs : FS) (fp : String) (wb : Workbook) : FS :=
  { fs with files := filesSet fs.files fp wb }

/-- `os.path.dirname` for the POSIX paths the handlers receive: the part
before the last '/', trailing slashes stripped unless the head is all
slashes; the empty string when the path has no directory component. -/
def pyDirname (fp : String) : String :=
  let head := (fp.toList.reverse.dropWhile (fun c => c ≠ '/')).reverse
  if head.all (fun c => c = '/') then String.mk head
  else String.mk ((head.reverse.dropWhile (fun c => c = '/')).reverse)

/-- `os.makedirs(d, exist_ok=True)` (line 755): raises `FileNotFoundError`
on the empty path — `os.path.dirname` of a bare filename — and otherwise
ensures the directory exists. -/
def makedirs (fs : FS) (d : String) : Except PyErr FS :=
  if d = "" then
    .error (.fileNotFoundError "[Errno 2] No such file or directory: ''")
  else if fs.dirs.contains d then .ok fs
  else .ok { fs with dirs := d :: fs.dirs }

/-- `_get_workbook_and_sheet` (lines 742-785).  First runs the line-755
makedirs, whose failure on a bare filename escapes before any load or
create; then returns the post-makedirs filesystem together with the
workbook and the index of the selected sheet (`none` when `sheet_name` is
falsy).  Every exception escaping the body is re-raised as
`Exception(f"Error in _get_workbook_and_sheet: {e}")`, modelled by
`PyErr.wrappedException`. -/
def getWorkbookAndSheet (fs : FS) (file_path : String)
    (sheet_name : Option String := none) (create_sheet : Bool := false) :
    FS × Except PyErr (Workbook × Option Nat) :=
  match makedirs fs (pyDirname file_path) with
  | .error e => (fs, .error (.wrappedException e))
  | .ok fs1 =>
    let loaded : Except PyErr Workbook :=
      match fsLookup fs1 file_path with
      | some wb => .ok wb
      | none =>
          if create_sheet then
            -- fresh Workbook(); drop the default sheet when a different
            -- specific sheet was requested (lines 767-770)
            let wb := freshWorkbook
            .ok (if truthyStr sheet_name ∧ sheet_name ≠ some "Sheet" then
                  wb.removeActive else wb)
          else
            .error (.valueError
              "Error loading workbook: File does not exist or is empty")
    match loaded with
    | .error e => (fs1, .error (.wrappedException e))
    | .ok wb =>
        if truthyStr sheet_name then
          match sheet_name with
          | none => (fs1, .ok (wb, none))
          | some sn =>
              match wb.idxOf sn with
              | some i => (fs1, .ok (wb, some i))
              | none =>
                  if create_sheet then
                    (fs1, .ok (wb.appendSheet sn, some wb.sheets.length))
                  else
                    (fs1, .error (.wrappedException (.keyError sn wb.sheetnames)))
        else (fs1, .ok (wb, none))

/-- The result of one tool invocation: the success payload, or the caught
exception together with the JSON error envelope the handler returns. -/
inductive Outcome (α : Type) where
  | ok (val : α) : Outcome α
  | err (e : PyErr) (env : List (String × JVal)) : Outcome α
deriving DecidableEq, Repr

def Outcome.isOk : Outcome α → Bool
  | .ok _ => true
  | .err _ _ => false

def Outcome.errKeys : Outcome α → List String
  | .ok _ => []
  | .err _ env => env.map Prod.fst

/-- The bare `{"error": str(e)}` envelope used by most handlers. -/
def errEnvOnly (e : PyErr) : List (String × JVal) :=
  [("error", .s (errMsg e))]

/-- `read_excel`'s error envelope (lines 150-156); the traceback text is
runtime-dependent and modelled as a placeholder. -/
def readErrEnv (e : PyErr) (fp sn : String) : List (String × JVal) :=
  [("error", .s (errMsg e)), ("error_type", .s (errType e)),
   ("traceback", .s "Traceback (most recent call last): ..."),
   ("file_path", .s fp), ("sheet_name", .s sn)]

/-- `write_excel`'s error envelope (lines 236-241). -/
def writeErrEnv (e : PyErr) (fp sn : String) : List (String × JVal) :=
  [("error", .s (errMsg e)), ("error_type", .s (errType e)),
   ("file_path", .s fp), ("sheet_name", .s sn)]

/-- `validate_formula_syntax`'s error envelope (lines 558-564). -/
def vfsErrEnv (e : PyErr) (formula cell : String) : List (String × JVal) :=
  [("status", .s "invalid"), ("error", .s (errMsg e)),
   ("formula", .s formula), ("cell", .s cell)]

/-- The `try/except` boundary of every handler: the body computes a new
filesystem state (whatever had been saved by the time of a raise) and either
a payload or a raised exception, which the `except` clause serialises with
the handler's envelope builder. -/
def wrapOutcome (envf : PyErr → List (String × JVal)) :
    FS × Except PyErr α → FS × Outcome α
  | (fs, .ok p) => (fs, .ok p)
  | (fs, .error e) => (fs, .err e (envf e))

/-- Sheet index lookup; indices produced by `getWorkbookAndSheet` are always
in bounds, so the default is never reached from the handlers. -/
def Workbook.sheetAt (wb : Workbook) (i : Nat) : Sheet :=
  (wb.sheets.get? i).getD (emptySheet "")

/-- `worksheet[key]` / `ws.cell` for a single-cell string: boundary parse
followed by openpyxl's `ws.cell` bounds check. -/
def wsSingleRef (key : String) : Except PyErr (Nat × Nat) :=
  match rangeSideParse key with
  | .error e => .error e
  | .ok (r, c) =>
      if r = 0 ∨ c = 0 then
        .error (.valueError "Row or column values must be at least 1")
      else .ok (r, c)

/-- `worksheet[range]` for a string with ':': the tuple-of-row-tuples of cell
values, rows `r1..r2` by columns `c1..c2` (empty when inverted, as for
Python `range`); materialising a row-0 cell raises. -/
def wsRangeValues (sh : Sheet) (rng : String) :
    Except PyErr (List (List PyVal)) :=
  match colonSplit rng with
  | [a, b] =>
      match rangeSideParse a, rangeSideParse b with
      | .ok (r1, c1), .ok (r2, c2) =>
          if r1 = 0 ∧ c1 ≤ c2 then
            .error (.valueError "Row or column values must be at least 1")
          else
            .ok ((List.range' r1 (r2 + 1 - r1)).map fun r =>
              (List.range' c1 (c2 + 1 - c1)).map fun c => sh.valueAt r c)
      | .error e, _ => .error e
      | _, .error e => .error e
  | _ => .error (.valueError (rng ++ " is not a valid coordinate or range"))

structure ReadPayload where
  file_path : String
  sheet_name : String
  range_read : String
  data : List (List JVal)
  dimensions : String
  total_cells : Nat
  row_offset : Nat
deriving DecidableEq, Repr

def hasDateEntry (rows : List (List PyVal)) : Bool :=
  rows.any (fun r => r.any isPyDate)

/-- The tail of `read_excel` (lines 117-147): dimension/total computation and
JSON serialisation of the success payload.  `json.dumps` without
`default=str` rejects datetime values, modelled by the `hasDateEntry`
guard. -/
def mkReadPayload (fp sn range_read : String) (minRow : Nat)
    (dataRaw : List (List PyVal)) : Except PyErr ReadPayload :=
  let rows_count := dataRaw.length
  let cols_count := (dataRaw.head?.map List.length).getD 0
  let dims := toString rows_count ++ " rows x " ++ toString cols_count ++ " columns"
  let total := dataRaw.foldl (fun acc r => acc + r.length) 0
  if hasDateEntry dataRaw then
    .error (.typeError "Object of type datetime is not JSON serializable")
  else
    .ok { file_path := fp, sheet_name := sn, range_read := range_read,
          data := dataRaw.map (List.map jsonOfPy), dimensions := dims,
          total_cells := total, row_offset := minRow - 1 }

/-- The body of the `read_excel` tool (lines 54-147). -/
def read_excel_core (fs : FS) (file_path sheet_name : String)
    (range? : Option String) : FS × Except PyErr ReadPayload :=
  let fail : PyErr → FS × Except PyErr ReadPayload := fun e => (fs, .error e)
  if ¬ extOk file_path then
    fail (.valueError
      "Invalid file format. Only Excel files (.xlsx, .xls, .xlsm) are supported")
  else
    match getWorkbookAndSheet fs file_path (some sheet_name) false with
    | (fs1, .error e) => (fs1, .error e)
    | (fs1, .ok (wb, wsIdx?)) =>
    let fail : PyErr → FS × Except PyErr ReadPayload := fun e => (fs1, .error e)
    if truthyStr range? ∧ ¬ pyMatchRange (range?.getD "") then
      fail (.valueError "Invalid range format. Use format like 'A1:B10' or 'A1'")
    else if truthyStr range? then
      let rng := range?.getD ""
      match wsIdx? with
      | none => fail (.typeError "'NoneType' object is not subscriptable")
      | some i =>
        let sh := wb.sheetAt i
        if hasColon rng then
          match wsRangeValues sh rng with
          | .error e => fail e
          | .ok rawRows =>
            let dataRaw := rawRows.map (List.map cellPyRender)
            match colonSplit rng with
            | [a, b] =>
              match coordinate_from_string a, coordinate_from_string b with
              | .ok (sColL, sRow), .ok (eColL, _) =>
                  -- min_col/max_col (lines 98-99) are computed but only
                  -- row_offset feeds the payload in the range path
                  match column_index_from_string (.pyStr sColL),
                        column_index_from_string (.pyStr eColL) with
                  | .ok _, .ok _ =>
                      (fs1, mkReadPayload file_path sheet_name rng sRow dataRaw)
                  | .error e, _ => fail e
                  | _, .error e => fail e
              | .error e, _ => fail e
              | _, .error e => fail e
            | _ => fail (.valueError "too many values to unpack (expected 2)")
        else
          match wsSingleRef rng with
          | .error e => fail e
          | .ok (r, c) =>
            let dataRaw := [[cellPyRender (sh.valueAt r c)]]
            match coordinate_from_string rng with
            | .error e => fail e
            | .ok (colL, singleRow) =>
                match column_index_from_string (.pyStr colL) with
                | .ok _ =>
                    (fs1, mkReadPayload file_path sheet_name rng singleRow dataRaw)
                | .error e => fail e
    else
      match wsIdx? with
      | none => fail (.attributeError "'NoneType' object has no attribute 'min_row'")
      | some i =>
        let sh := wb.sheetAt i
        let minR := sh.minRow
        let maxR := sh.maxRow
        let minC := sh.minCol
        let maxC := sh.maxCol
        let dataRaw := (List.range' minR (maxR + 1 - minR)).map fun r =>
          (List.range' minC (maxC + 1 - minC)).map fun c =>
            cellPyRender (sh.valueAt r c)
        match get_column_letter maxC with
        | .error e => fail e
        | .ok colL =>
          (fs1, mkReadPayload file_path sheet_name
            ("A" ++ toString minR ++ ":" ++ colL ++ toString maxR) minR dataRaw)

/-- The `read_excel` tool (lines 52-156): body plus its `except` clause,
whose envelope echoes `file_path` and `sheet_name` (lines 150-156). -/
def read_excel (fs : FS) (file_path sheet_name : String)
    (range? : Option String := none) : FS × Outcome ReadPayload :=
  wrapOutcome (fun e => readErrEnv e file_path sheet_name)
    (read_excel_core fs file_path sheet_name range?)

structure WritePayload where
  status : String
  file_path : String
  sheet_name : String
  rows_written : Nat
  columns_written : Nat
  start_cell : String
  end_cell : String
  cells_written : Nat
deriving DecidableEq, Repr

/-- Value dispatch of `write_excel` (lines 193-201).  `isinstance(value,
(int, float))` is tested with no earlier bool case, and a Python bool IS an
int, so booleans take the integer branch (including its number format). -/
def writeCellValueWE (v : PyVal) (cd : CellData) : CellData :=
  match v with
  | .pyDate iso =>
      { cd with value := .pyDate iso, numberFormat := "yyyy-mm-dd", hasStyle := true }
  | .pyInt n => { cd with value := .pyInt n, numberFormat := "#,##0", hasStyle := true }
  | .pyBool b => { cd with value := .pyBool b, numberFormat := "#,##0", hasStyle := true }
  | .pyFloat q =>
      { cd with value := .pyFloat q, numberFormat := "#,##0.00", hasStyle := true }
  | .pyNone => { cd with value := .pyStr "" }
  | .pyStr s => { cd with value := .pyStr s }

structure StyleSnap where
  font : PyFont
  fill : PyFill
  border : PyBorder
  alignment : PyAlignment
deriving DecidableEq, Repr

def snapOfCell (cd : CellData) : StyleSnap :=
  { font := cd.font, fill := cd.fill, border := cd.border, alignment := cd.alignment }

/-- Snapshot loop over one data row (inner loop of lines 178-186); `ws.cell`
materialises each target cell. -/
def snapRow (srow scol ri : Nat) : Sheet → Nat → List PyVal →
    Sheet × List ((Nat × Nat) × StyleSnap)
  | sh, _, [] => (sh, [])
  | sh, ci, _ :: rest =>
      let sh1 := sh.touchCell (srow + ri) (scol + ci)
      let snap := snapOfCell ((sh1.getCell? (srow + ri) (scol + ci)).getD {})
      let (sh2, tl) := snapRow srow scol ri sh1 (ci + 1) rest
      (sh2, ((ri, ci), snap) :: tl)

/-- Snapshot loop over all data rows (lines 176-186). -/
def snapAll (srow scol : Nat) : Sheet → Nat → List (List PyVal) →
    Sheet × List ((Nat × Nat) × StyleSnap)
  | sh, _, [] => (sh, [])
  | sh, ri, row :: rest =>
      let (sh1, l1) := snapRow srow scol ri sh 0 row
      let (sh2, l2) := snapAll srow scol sh1 (ri + 1) rest
      (sh2, l1 ++ l2)

def snapFind : List ((Nat × Nat) × StyleSnap) → Nat × Nat → Option StyleSnap
  | [], _ => none
  | (k, v) :: rest, key => if k = key then some v else snapFind rest key

/-- Write-and-restore loop over one data row (lines 190-209): per cell, the
value write is immediately followed by that cell's style restore. -/
def writeRowWE (srow scol ri : Nat) (preserve : Bool)
    (formats : List ((Nat × Nat) × StyleSnap)) : Sheet → Nat → List PyVal → Sheet
  | sh, _, [] => sh
  | sh, ci, v :: rest =>
      let sh1 := sh.updCell (srow + ri) (scol + ci) (writeCellValueWE v)
      let sh2 :=
        if preserve then
          match snapFind formats (ri, ci) with
          | some snap => sh1.updCell (srow + ri) (scol + ci) (fun cd =>
              { cd with font := snap.font, fill := snap.fill,
                        border := snap.border, alignment := snap.alignment,
                        hasStyle := true })
          | none => sh1
        else sh1
      writeRowWE srow scol ri preserve formats sh2 (ci + 1) rest

def writeAllWE (srow scol : Nat) (preserve : Bool)
    (formats : List ((Nat × Nat) × StyleSnap)) : Sheet → Nat → List (List PyVal) → Sheet
  | sh, _, [] => sh
  | sh, ri, row :: rest =>
      writeAllWE srow scol preserve formats
        (writeRowWE srow scol ri preserve formats sh 0 row) (ri + 1) rest

def colWidthSet : List (String × ℚ) → String → ℚ → List (String × ℚ)
  | [], k, v => [(k, v)]
  | (k', v') :: rest, k, v =>
      if k' = k then (k, v) :: rest else (k', v') :: colWidthSet rest k v

/-- Width measuring for one column of the written block (lines 214-220):
`ws.cell` materialises, `len(str(cell.value))` is measured, starting at 0. -/
def measureColWE (sh : Sheet) (srow scol ci nRows : Nat) : Sheet × Nat :=
  (List.range nRows).foldl
    (fun acc rIdx =>
      let sh1 := acc.1.touchCell (srow + rIdx) (scol + ci)
      (sh1, Nat.max acc.2 (pyStrOf (sh1.valueAt (srow + rIdx) (scol + ci))).length))
    (sh, 0)

/-- Column auto-width pass of `write_excel` (lines 211-221), over
`len(data[0])` columns, each width capped at 50. -/
def widthsWE (srow scol nRows : Nat) : Sheet → Nat → Nat → Except PyErr Sheet
  | sh, _, 0 => .ok sh
  | sh, ci, rem + 1 =>
      match get_column_letter (scol + ci) with
      | .error e => .error e
      | .ok colL =>
          let (sh1, maxLen) := measureColWE sh srow scol ci nRows
          widthsWE srow scol nRows
            { sh1 with colWidths :=
                colWidthSet sh1.colWidths colL ((Nat.min (maxLen + 2) 50 : Nat) : ℚ) }
            (ci + 1) rem

/-- The body of the `write_excel` tool (lines 162-234).  The save (line 223)
precedes the response construction, whose `end_cell` field evaluates
`data[0]` unguarded. -/
def write_excel_core (fs : FS) (file_path sheet_name : String)
    (data : List (List PyVal)) (start_cell : String)
    (preserve_formatting : Bool) : FS × Except PyErr WritePayload :=
  let fail : PyErr → FS × Except PyErr WritePayload := fun e => (fs, .error e)
  if ¬ extOk file_path then
    fail (.valueError "Invalid file format. Only Excel files are supported")
  else if ¬ pyMatchAddr start_cell then
    fail (.valueError "Invalid start_cell format. Use format like 'A1'")
  else
    match getWorkbookAndSheet fs file_path (some sheet_name) true with
    | (fs1, .error e) => (fs1, .error e)
    | (fs1, .ok (wb, wsIdx?)) =>
      let fail : PyErr → FS × Except PyErr WritePayload := fun e => (fs1, .error e)
      match wsIdx? with
      | none => fail (.typeError "'NoneType' object is not subscriptable")
      | some i =>
        match wsSingleRef start_cell with
        | .error e => fail e
        | .ok (srow, scol) =>
          -- worksheet[start_cell] (lines 172-173) materialises that cell
          let sh0 := (wb.sheetAt i).touchCell srow scol
          let snapped :=
            if preserve_formatting then snapAll srow scol sh0 0 data else (sh0, [])
          let sh1 := writeAllWE srow scol preserve_formatting snapped.2 snapped.1 0 data
          match widthsWE srow scol data.length sh1 0
              ((data.head?.map List.length).getD 0) with
          | .error e => fail e
          | .ok sh2 =>
            let wb' := wb.updateSheet i (fun _ => sh2)
            let fs' := fsSet fs1 file_path wb'
            match data.head? with
            | none => (fs', .error .indexError)
            | some row0 =>
              match get_column_letter (scol + row0.length - 1) with
              | .error e => (fs', .error e)
              | .ok endColL =>
                (fs', .ok {
                  status := "success", file_path := file_path,
                  sheet_name := sheet_name, rows_written := data.length,
                  columns_written := row0.length, start_cell := start_cell,
                  end_cell := endColL ++ toString (srow + data.length - 1),
                  cells_written := data.foldl (fun acc r => acc + r.length) 0 })

/-- The `write_excel` tool (lines 158-241): body plus its `except` clause
(lines 235-241), whose envelope echoes `file_path` and `sheet_name`. -/
def write_excel (fs : FS) (file_path sheet_name : String)
    (data : List (List PyVal)) (start_cell : String := "A1")
    (preserve_formatting : Bool := true) : FS × Outcome WritePayload :=
  wrapOutcome (fun e => writeErrEnv e file_path sheet_name)
    (write_excel_core fs file_path sheet_name data start_cell preserve_formatting)

/-- The observable cell-level events of `write_excel`'s formatting-preserving
write: style snapshot reads, value writes, style restores, at 0-based data
positions. -/
inductive WEvent where
  | styleRead (ri ci : Nat) : WEvent
  | valueWrite (ri ci : Nat) : WEvent
  | styleRestore (ri ci : Nat) : WEvent
deriving DecidableEq, Repr

def readRowEvents (ri : Nat) : Nat → List PyVal → List WEvent
  | _, [] => []
  | ci, _ :: rest => .styleRead ri ci :: readRowEvents ri (ci + 1) rest

def readEvents : Nat → List (List PyVal) → List WEvent
  | _, [] => []
  | ri, row :: rest => readRowEvents ri 0 row ++ readEvents (ri + 1) rest

def writeRowEvents (preserve : Bool) (ri : Nat) : Nat → List PyVal → List WEvent
  | _, [] => []
  | ci, _ :: rest =>
      .valueWrite ri ci ::
        ((if preserve then [WEvent.styleRestore ri ci] else []) ++
          writeRowEvents preserve ri (ci + 1) rest)

def writeEvents (preserve : Bool) : Nat → List (List PyVal) → List WEvent
  | _, [] => []
  | ri, row :: rest => writeRowEvents preserve ri 0 row ++ writeEvents preserve (ri + 1) rest

/-- The event trace of `write_excel` on `data`: first the snapshot loop of
lines 176-186 (style reads), then the loop of lines 188-209, in which each
cell's value write is immediately followed by that cell's style restore. -/
def write_excel_events (data : List (List PyVal)) (preserve : Bool) : List WEvent :=
  (if preserve then readEvents 0 data else []) ++ writeEvents preserve 0 data

/-- The phase discipline the specification asserts: all style reads strictly
precede all value writes, which strictly precede all style restores. -/
def phasedAux : Nat → List WEvent → Bool
  | _, [] => true
  | ph, .styleRead _ _ :: rest => decide (ph = 0) && phasedAux 0 rest
  | ph, .valueWrite _ _ :: rest => decide (ph ≤ 1) && phasedAux 1 rest
  | _, .styleRestore _ _ :: rest => phasedAux 2 rest

def phasedRWR (tr : List WEvent) : Bool := phasedAux 0 tr

/-- The discipline the code actually follows after the leading reads: a
sequence of (value write, same-cell style restore) pairs. -/
def pairsWR : List WEvent → Bool
  | [] => true
  | .valueWrite r c :: .styleRestore r' c' :: rest =>
      decide (r = r') && decide (c = c') && pairsWR rest
  | _ => false

def readsThenPairs : List WEvent → Bool
  | .styleRead _ _ :: rest => readsThenPairs rest
  | l => pairsWR l

structure WriteDataPayload where
  status : String
  file_path : String
  sheet_name : String
  rows_written : Nat
  columns_written : Nat
  start_cell : String
  end_cell : String
  range_written : String
  cells_written : Nat
deriving DecidableEq, Repr

/-- Value dispatch of `write_data_to_excel` (lines 398-413): here bool IS
tested before the numeric case; floats keep the integer format when
`value % 1 == 0`.  Only the date (not datetime) number format is modelled
for `pyDate`. -/
def writeCellValueWD (v : PyVal) (cd : CellData) : CellData :=
  match v with
  | .pyDate iso =>
      { cd with value := .pyDate iso, numberFormat := "yyyy-mm-dd", hasStyle := true }
  | .pyBool b => { cd with value := .pyBool b }
  | .pyInt n => { cd with value := .pyInt n, numberFormat := "#,##0", hasStyle := true }
  | .pyFloat q =>
      let fmt := if q.den ≠ 1 then "#,##0.00" else "#,##0"
      { cd with value := .pyFloat q, numberFormat := fmt, hasStyle := true }
  | .pyNone => { cd with value := .pyStr "" }
  | .pyStr s => { cd with value := .pyStr s }

/-- Python `+` between the dynamically typed `start_row` and an index.
After the swapped unpacking in `write_data_to_excel`, `start_row` holds the
column LETTERS, so this raises `TypeError` whenever that loop is reached. -/
def pyAddInt : PyVal → Nat → Except PyErr Int
  | .pyInt n, k => .ok (n + k)
  | .pyStr _, _ =>
      .error (.typeError "can only concatenate str (not \"int\") to str")
  | _, _ => .error (.typeError "unsupported operand type(s) for +")

def writeDataRow (start_row : PyVal) (start_col_idx ri : Nat) :
    Sheet → Nat → List PyVal → Except PyErr Sheet
  | sh, _, [] => .ok sh
  | sh, ci, v :: rest =>
      match pyAddInt start_row ri with
      | .error e => .error e
      | .ok r =>
          if r < 1 then
            .error (.valueError "Row or column values must be at least 1")
          else
            writeDataRow start_row start_col_idx ri
              (sh.updCell r.toNat (start_col_idx + ci) (writeCellValueWD v))
              (ci + 1) rest

def writeDataLoop (start_row : PyVal) (start_col_idx : Nat) :
    Sheet → Nat → List (List PyVal) → Except PyErr Sheet
  | sh, _, [] => .ok sh
  | sh, ri, row :: rest =>
      match writeDataRow start_row start_col_idx ri sh 0 row with
      | .error e => .error e
      | .ok sh1 => writeDataLoop start_row start_col_idx sh1 (ri + 1) rest

/-- The body of `write_data_to_excel` (lines 383-449).  Line 386 reads
`start_row, start_col = coordinate_from_string(start_cell)`, but
`coordinate_from_string` returns `(column letters, row)` — the source's own
comment at line 94 says so — so `start_row` gets the letter STRING and
`start_col` gets the row INTEGER, and the following
`column_index_from_string(start_col)` raises on every input. -/
def write_data_to_excel_core (fs : FS) (file_path sheet_name : String)
    (data : List (List PyVal)) (start_cell : String) :
    FS × Except PyErr WriteDataPayload :=
  match getWorkbookAndSheet fs file_path (some sheet_name) true with
  | (fs1, .error e) => (fs1, .error e)
  | (fs1, .ok (wb, wsIdx?)) =>
    let fail : PyErr → FS × Except PyErr WriteDataPayload := fun e => (fs1, .error e)
    match coordinate_from_string start_cell with
    | .error e => fail e
    | .ok colRow =>
      let start_row : PyVal := .pyStr colRow.1
      let start_col : PyVal := .pyInt colRow.2
      match column_index_from_string start_col with
      | .error e => fail e
      | .ok start_col_idx =>
        match wsIdx? with
        | none => fail (.attributeError "'NoneType' object has no attribute 'cell'")
        | some i =>
          match writeDataLoop start_row start_col_idx (wb.sheetAt i) 0 data with
          | .error e => fail e
          | .ok sh =>
            let wb' := wb.updateSheet i (fun _ => sh)
            let fs' := fsSet fs1 file_path wb'
            let total_rows := data.length
            let total_cols := (data.head?.map List.length).getD 0
            let end_rowE : Except PyErr PyVal :=
              if total_rows > 0 then
                match pyAddInt start_row total_rows with
                | .error e => .error e
                | .ok x => .ok (.pyInt (x - 1))
              else .ok start_row
            match end_rowE with
            | .error e => (fs', .error e)
            | .ok end_row =>
              let end_col_idx :=
                if total_cols > 0 then start_col_idx + total_cols - 1 else start_col_idx
              match get_column_letter end_col_idx with
              | .error e => (fs', .error e)
              | .ok endColL =>
                let end_cell := endColL ++ pyStrOf end_row
                (fs', .ok {
                  status := "success", file_path := file_path,
                  sheet_name := sheet_name, rows_written := total_rows,
                  columns_written := total_cols, start_cell := start_cell,
                  end_cell := end_cell,
                  range_written := start_cell ++ ":" ++ end_cell,
                  cells_written := data.foldl (fun acc r => acc + r.length) 0 })

/-- The `write_data_to_excel` tool (lines 379-451). -/
def write_data_to_excel (fs : FS) (file_path sheet_name : String)
    (data : List (List PyVal)) (start_cell : String := "A1") :
    FS × Outcome WriteDataPayload :=
  wrapOutcome errEnvOnly
    (write_data_to_excel_core fs file_path sheet_name data start_cell)

structure CreateWbPayload where
  status : String
  file_path : String
  sheets_created : List String
deriving DecidableEq, Repr

def createSheetsAt : Workbook → Nat → List String → Workbook
  | wb, _, [] => wb
  | wb, i, n :: rest => createSheetsAt (wb.insertSheetAt n i) (i + 1) rest

/-- The body of `create_workbook` (lines 246-261): fails when the path
already exists, otherwise builds a workbook whose default sheet is removed
and whose sheets are created at indices 0, 1, ... in the order given.
This handler performs no makedirs, so `workbook.save(file_path)` (line 259)
raises `FileNotFoundError` when the path names a parent directory that does
not exist; a bare filename saves into the current directory. -/
def create_workbook_core (fs : FS) (file_path : String)
    (sheet_names? : Option (List String)) : FS × Except PyErr CreateWbPayload :=
  let sheet_names := sheet_names?.getD ["Sheet1"]
  match fsLookup fs file_path with
  | some _ =>
      (fs, .error (.fileExistsError
        ("File already exists at '" ++ file_path ++ "'. Cannot create new workbook.")))
  | none =>
      let wb := createSheetsAt freshWorkbook.removeActive 0 sheet_names
      if pyDirname file_path = "" ∨ fs.dirs.contains (pyDirname file_path) then
        (fsSet fs file_path wb,
         .ok { status := "success", file_path := file_path, sheets_created := sheet_names })
      else
        (fs, .error (.fileNotFoundError
          ("[Errno 2] No such file or directory: '" ++ file_path ++ "'")))

/-- The `create_workbook` tool (lines 243-263). -/
def create_workbook (fs : FS) (file_path : String)
    (sheet_names? : Option (List String) := none) : FS × Outcome CreateWbPayload :=
  wrapOutcome errEnvOnly (create_workbook_core fs file_path sheet_names?)

structure ListSheetsPayload where
  file_path : String
  sheets : List String
deriving DecidableEq, Repr

/-- The body of `list_sheets` (lines 268-272). -/
def list_sheets_core (fs : FS) (file_path : String) :
    FS × Except PyErr ListSheetsPayload :=
  match getWorkbookAndSheet fs file_path none false with
  | (fs1, .error e) => (fs1, .error e)
  | (fs1, .ok (wb, _)) =>
      (fs1, .ok { file_path := file_path, sheets := wb.sheetnames })

/-- The `list_sheets` tool (lines 265-274). -/
def list_sheets (fs : FS) (file_path : String) : FS × Outcome ListSheetsPayload :=
  wrapOutcome errEnvOnly (list_sheets_core fs file_path)

structure UpdateCellPayload where
  status : String
  file_path : String
  sheet_name : String
  cell : String
  value_set : String
  message : String
deriving DecidableEq, Repr

/-- The body of `update_single_cell` (lines 722-736): loads with sheet
auto-creation, assigns the raw string value, saves. -/
def update_single_cell_core (fs : FS) (file_path sheet_name cell value : String) :
    FS × Except PyErr UpdateCellPayload :=
  match getWorkbookAndSheet fs file_path (some sheet_name) true with
  | (fs1, .error e) => (fs1, .error e)
  | (fs1, .ok (wb, wsIdx?)) =>
    let fail : PyErr → FS × Except PyErr UpdateCellPayload := fun e => (fs1, .error e)
    match wsIdx? with
    | none => fail (.typeError "'NoneType' object does not support item assignment")
    | some i =>
      match wsSingleRef cell with
      | .error e => fail e
      | .ok (r, c) =>
        let wb' := wb.updateSheet i (fun sh =>
          sh.updCell r c (fun cd => { cd with value := .pyStr value }))
        (fsSet fs1 file_path wb',
         .ok { status := "success", file_path := file_path,
               sheet_name := sheet_name, cell := cell, value_set := value,
               message := "Cell " ++ cell ++ " updated to '" ++ value ++ "'" })

/-- The `update_single_cell` tool (lines 719-738). -/
def update_single_cell (fs : FS) (file_path sheet_name cell value : String) :
    FS × Outcome UpdateCellPayload :=
  wrapOutcome errEnvOnly (update_single_cell_core fs file_path sheet_name cell value)

structure AddFormulaPayload where
  status : String
  file_path : String
  sheet_name : String
  cell : String
  formula_added : String
deriving DecidableEq, Repr

/-- Python `formula.lstrip('=')`. -/
def lstripEq (s : String) : String := String.mk (s.toList.dropWhile (· = '='))

/-- The body of `add_formula` (lines 706-715).  Its `_get_workbook_and_sheet`
call passes NO `create_sheet=True` (line 707), so a missing sheet raises. -/
def add_formula_core (fs : FS) (file_path sheet_name cell formula : String) :
    FS × Except PyErr AddFormulaPayload :=
  match getWorkbookAndSheet fs file_path (some sheet_name) false with
  | (fs1, .error e) => (fs1, .error e)
  | (fs1, .ok (wb, wsIdx?)) =>
    let fail : PyErr → FS × Except PyErr AddFormulaPayload := fun e => (fs1, .error e)
    match wsIdx? with
    | none => fail (.typeError "'NoneType' object does not support item assignment")
    | some i =>
      match wsSingleRef cell with
      | .error e => fail e
      | .ok (r, c) =>
        let fstr := "=" ++ lstripEq formula
        let wb' := wb.updateSheet i (fun sh =>
          sh.updCell r c (fun cd => { cd with value := .pyStr fstr }))
        (fsSet fs1 file_path wb',
         .ok { status := "success", file_path := file_path,
               sheet_name := sheet_name, cell := cell, formula_added := fstr })

/-- The `add_formula` tool (lines 703-717). -/
def add_formula (fs : FS) (file_path sheet_name cell formula : String) :
    FS × Outcome AddFormulaPayload :=
  wrapOutcome errEnvOnly (add_formula_core fs file_path sheet_name cell formula)

structure DeleteWsPayload where
  status : String
  file_path : String
  sheet_name : String
  remaining_sheets : List String
  message : String
deriving DecidableEq, Repr

/-- The body of `delete_worksheet` (lines 590-609): refuses to delete a
missing sheet or the only sheet; the save happens only after a successful
removal. -/
def delete_worksheet_core (fs : FS) (file_path sheet_name : String) :
    FS × Except PyErr DeleteWsPayload :=
  match getWorkbookAndSheet fs file_path none true with
  | (fs1, .error e) => (fs1, .error e)
  | (fs1, .ok (wb, _)) =>
    let fail : PyErr → FS × Except PyErr DeleteWsPayload := fun e => (fs1, .error e)
    if sheet_name ∈ wb.sheetnames then
      if wb.sheetnames.length = 1 then
        fail (.valueError "Cannot delete the only worksheet in the workbook")
      else
        let wb' := wb.removeByName sheet_name
        (fsSet fs1 file_path wb',
         .ok { status := "success", file_path := file_path,
               sheet_name := sheet_name, remaining_sheets := wb'.sheetnames,
               message := "Worksheet '" ++ sheet_name ++ "' deleted successfully" })
    else fail (.valueError ("Sheet '" ++ sheet_name ++ "' does not exist"))

/-- The `delete_worksheet` tool (lines 587-611). -/
def delete_worksheet (fs : FS) (file_path sheet_name : String) :
    FS × Outcome DeleteWsPayload :=
  wrapOutcome errEnvOnly (delete_worksheet_core fs file_path sheet_name)

structure CreateWsPayload where
  status : String
  file_path : String
  sheet_name : String
  message : String
deriving DecidableEq, Repr

/-- The body of `create_worksheet` (lines 569-583). -/
def create_worksheet_core (fs : FS) (file_path sheet_name : String) :
    FS × Except PyErr CreateWsPayload :=
  match getWorkbookAndSheet fs file_path none true with
  | (fs1, .error e) => (fs1, .error e)
  | (fs1, .ok (wb, _)) =>
      if sheet_name ∈ wb.sheetnames then
        (fs1, .error (.valueError ("Sheet '" ++ sheet_name ++ "' already exists")))
      else
        (fsSet fs1 file_path (wb.appendSheet sheet_name),
         .ok { status := "success", file_path := file_path,
               sheet_name := sheet_name,
               message := "Worksheet '" ++ sheet_name ++ "' created successfully" })

/-- The `create_worksheet` tool (lines 566-585). -/
def create_worksheet (fs : FS) (file_path sheet_name : String) :
    FS × Outcome CreateWsPayload :=
  wrapOutcome errEnvOnly (create_worksheet_core fs file_path sheet_name)

/-- Pure column-letter encoder (the property `cell.coordinate`); indices
used with it are produced by range parsing and therefore within 1..18278. -/
def colLetterStr (c : Nat) : String := String.mk (colLettersAux c [])

structure AutofitPayload where
  status : String
  file_path : String
  sheet_name : String
  columns_autofit : List String
deriving DecidableEq, Repr

/-- Is there any truthy cell value in the sheet's dimension rectangle?  The
set comprehension at line 288 evaluates `get_column_letter(c.column)` for the
first such cell — but `c` is a column TUPLE, which has no `.column`
attribute, so any truthy cell makes the comprehension raise. -/
def sheetRectHasTruthy (sh : Sheet) : Bool :=
  (List.range' sh.minRow (sh.maxRow + 1 - sh.minRow)).any fun r =>
    (List.range' sh.minCol (sh.maxCol + 1 - sh.minCol)).any fun c =>
      pyTruthy (sh.valueAt r c)

/-- `ws.columns` materialises every cell of the dimension rectangle. -/
def sheetMaterializeRect (sh : Sheet) : Sheet :=
  (List.range' sh.minRow (sh.maxRow + 1 - sh.minRow)).foldl (fun acc r =>
    (List.range' sh.minCol (sh.maxCol + 1 - sh.minCol)).foldl (fun acc2 c =>
      acc2.touchCell r c) acc) sh

/-- `worksheet[col_letter]` iteration for one explicit column (lines
290-297): rows 1..max_row are materialised and `len(str(cell.value))` is
measured (an empty cell's `str(None)` counts 4). -/
def autofitCol (sh : Sheet) (colL : String) : Except PyErr (Sheet × Nat) :=
  let cs := colL.toList
  if cs ≠ [] ∧ cs.length ≤ 3 ∧ cs.all isUpperAlpha then
    let c := colIndexOfLetters cs
    .ok ((List.range' 1 sh.maxRow).foldl (fun acc r =>
      let sh1 := acc.1.touchCell r c
      (sh1, Nat.max acc.2 (pyStrOf (sh1.valueAt r c)).length)) (sh, 0))
  else .error (.valueError (colL ++ " is not a valid coordinate or range"))

def autofitLoop : Sheet → List String → Except PyErr Sheet
  | sh, [] => .ok sh
  | sh, colL :: rest =>
      match autofitCol sh colL with
      | .error e => .error e
      | .ok shLen =>
          let sh' := { shLen.1 with
            colWidths := colWidthSet shLen.1.colWidths colL ((shLen.2 + 2 : Nat) : ℚ) }
          autofitLoop sh' rest

/-- The body of `autofit_columns` (lines 279-305). -/
def autofit_columns_core (fs : FS) (file_path sheet_name : String)
    (columns? : Option (List String)) : FS × Except PyErr AutofitPayload :=
  let columns := columns?.getD []
  match getWorkbookAndSheet fs file_path (some sheet_name) false with
  | (fs1, .error e) => (fs1, .error e)
  | (fs1, .ok (wb, wsIdx?)) =>
    let fail : PyErr → FS × Except PyErr AutofitPayload := fun e => (fs1, .error e)
    match wsIdx? with
    | none => fail (.attributeError "'NoneType' object has no attribute 'columns'")
    | some i =>
      let sh := wb.sheetAt i
      if columns.isEmpty then
        if sheetRectHasTruthy sh then
          fail (.attributeError "'tuple' object has no attribute 'column'")
        else
          (fsSet fs1 file_path (wb.updateSheet i (fun _ => sheetMaterializeRect sh)),
           .ok { status := "success", file_path := file_path,
                 sheet_name := sheet_name, columns_autofit := [] })
      else
        match autofitLoop sh columns with
        | .error e => fail e
        | .ok sh' =>
          (fsSet fs1 file_path (wb.updateSheet i (fun _ => sh')),
           .ok { status := "success", file_path := file_path,
                 sheet_name := sheet_name, columns_autofit := columns })

/-- The `autofit_columns` tool (lines 276-307). -/
def autofit_columns (fs : FS) (file_path sheet_name : String)
    (columns? : Option (List String) := none) : FS × Outcome AutofitPayload :=
  wrapOutcome errEnvOnly (autofit_columns_core fs file_path sheet_name columns?)

def truthyInt : Option Int → Bool
  | none => false
  | some n => n ≠ 0

structure FormatApplied where
  bold : Bool
  italic : Bool
  underline : Bool
  font_size : Option Int
  font_color : Option String
  bg_color : Option String
  border_style : Option String
  border_color : Option String
  number_format : Option String
  alignment : Option String
  wrap_text : Bool
  merge_cells : Bool
deriving DecidableEq, Repr

structure FormatRangePayload where
  status : String
  file_path : String
  sheet_name : String
  rangeField : String
  formatting_applied : FormatApplied
deriving DecidableEq, Repr

/-- `_iterate_cells_in_range` (lines 787-816): the cell coordinates the
generator yields.  A library-level failure enters the fallback (lines
805-814), which repeats the swapped `coordinate_from_string` unpacking and
then calls `column_index_from_string` on the row integer, raising
`AttributeError` (after possibly failing inside `coordinate_from_string`
first). -/
def iterateCellsCoords (rng : String) : Except PyErr (List (Nat × Nat)) :=
  if hasColon rng then
    let primary : Except PyErr (List (Nat × Nat)) :=
      match colonSplit rng with
      | [a, b] =>
          match rangeSideParse a, rangeSideParse b with
          | .ok (r1, c1), .ok (r2, c2) =>
              if r1 = 0 ∧ c1 ≤ c2 then
                .error (.valueError "Row or column values must be at least 1")
              else
                .ok ((List.range' r1 (r2 + 1 - r1)).foldr (fun r acc =>
                  ((List.range' c1 (c2 + 1 - c1)).map (fun c => (r, c))) ++ acc) [])
          | .error e, _ => .error e
          | _, .error e => .error e
      | _ => .error (.valueError (rng ++ " is not a valid coordinate or range"))
    match primary with
    | .ok l => .ok l
    | .error _ =>
        match colonSplit rng with
        | [a, b] =>
            match coordinate_from_string a with
            | .error e => .error e
            | .ok _ =>
                match coordinate_from_string b with
                | .error e => .error e
                | .ok _ => .error (.attributeError "'int' object has no attribute 'upper'")
        | _ => .error (.valueError "too many values to unpack (expected 2)")
  else
    match wsSingleRef rng with
    | .ok rc => .ok [rc]
    | .error e => .error e

/-- Style application to one cell (lines 351-356). -/
def applyFormatCell (font : Option PyFont) (fill : Option PyFill)
    (border : Option PyBorder) (align : Option PyAlignment)
    (nf : Option String) (cd : CellData) : CellData :=
  let cd := match font with
    | some f => { cd with font := f, hasStyle := true }
    | none => cd
  let cd := match fill with
    | some f => { cd with fill := f, hasStyle := true }
    | none => cd
  let cd := match border with
    | some b => { cd with border := b, hasStyle := true }
    | none => cd
  let cd := match align with
    | some a => { cd with alignment := a, hasStyle := true }
    | none => cd
  if truthyStr nf then { cd with numberFormat := nf.getD "", hasStyle := true } else cd

/-- The body of `format_range` (lines 316-375). -/
def format_range_core (fs : FS) (file_path sheet_name start_cell : String)
    (end_cell : Option String) (bold italic underline : Bool)
    (font_size : Option Int) (font_color bg_color : Option String)
    (border_style border_color number_format alignment : Option String)
    (wrap_text merge_cells : Bool) : FS × Except PyErr FormatRangePayload :=
  match getWorkbookAndSheet fs file_path (some sheet_name) false with
  | (fs1, .error e) => (fs1, .error e)
  | (fs1, .ok (wb, wsIdx?)) =>
    let fail : PyErr → FS × Except PyErr FormatRangePayload := fun e => (fs1, .error e)
    let range_str :=
      if truthyStr end_cell then start_cell ++ ":" ++ end_cell.getD "" else start_cell
    let fontAny := bold ∨ italic ∨ underline ∨ truthyInt font_size ∨ truthyStr font_color
    let font : Option PyFont :=
      if fontAny then
        some { bold := if bold then some true else none,
               italic := if italic then some true else none,
               underline := if underline then some "single" else none,
               size := if truthyInt font_size then font_size.map (fun n => (n : ℚ)) else none,
               color := if truthyStr font_color then
                   font_color.map stripHash else none }
      else none
    let fill : Option PyFill :=
      if truthyStr bg_color then
        some { fillType := some "solid",
               startColor := bg_color.map stripHash }
      else none
    let border : Option PyBorder :=
      if truthyStr border_style ∧ truthyStr border_color then
        let side : PySide := { style := border_style,
                               color := border_color.map stripHash }
        some { left := some side, right := some side, top := some side, bottom := some side }
      else none
    let align : Option PyAlignment :=
      if truthyStr alignment ∨ wrap_text then
        some { horizontal := if truthyStr alignment then alignment else none,
               wrapText := wrap_text }
      else none
    let applied : FormatApplied :=
      { bold := bold, italic := italic, underline := underline,
        font_size := font_size, font_color := font_color, bg_color := bg_color,
        border_style := border_style, border_color := border_color,
        number_format := number_format, alignment := alignment,
        wrap_text := wrap_text, merge_cells := merge_cells }
    match wsIdx? with
    | none =>
        -- worksheet is None: the subscript in `_iterate_cells_in_range`
        -- raises; for ':'-ranges the fallback then reproduces its
        -- swapped-unpacking failure
        if hasColon range_str then
          match colonSplit range_str with
          | [a, b] =>
              match coordinate_from_string a, coordinate_from_string b with
              | .ok _, .ok _ => fail (.attributeError "'int' object has no attribute 'upper'")
              | .error e, _ => fail e
              | _, .error e => fail e
          | _ => fail (.valueError "too many values to unpack (expected 2)")
        else fail (.typeError "'NoneType' object is not subscriptable")
    | some i =>
      match iterateCellsCoords range_str with
      | .error e => fail e
      | .ok coords =>
        let sh := coords.foldl (fun acc rc =>
          acc.updCell rc.1 rc.2 (applyFormatCell font fill border align number_format))
          (wb.sheetAt i)
        let sh :=
          if merge_cells ∧ truthyStr end_cell then
            { sh with merged := sh.merged ++ [start_cell ++ ":" ++ end_cell.getD ""] }
          else sh
        (fsSet fs1 file_path (wb.updateSheet i (fun _ => sh)),
         .ok { status := "success", file_path := file_path,
               sheet_name := sheet_name, rangeField := range_str,
               formatting_applied := applied })

/-- The `format_range` tool (lines 309-377). -/
def format_range (fs : FS) (file_path sheet_name start_cell : String)
    (end_cell : Option String := none) (bold : Bool := false)
    (italic : Bool := false) (underline : Bool := false)
    (font_size : Option Int := none) (font_color : Option String := none)
    (bg_color : Option String := none) (border_style : Option String := none)
    (border_color : Option String := none) (number_format : Option String := none)
    (alignment : Option String := none) (wrap_text : Bool := false)
    (merge_cells : Bool := false) : FS × Outcome FormatRangePayload :=
  wrapOutcome errEnvOnly
    (format_range_core fs file_path sheet_name start_cell end_cell bold italic
      underline font_size font_color bg_color border_style border_color
      number_format alignment wrap_text merge_cells)

structure FormattingInfo where
  font_bold : Option Bool
  font_size : Option ℚ
  font_color : Option String
  bg_color : Option String
  number_format : String
deriving DecidableEq, Repr

structure CellInfo where
  address : String
  value : JVal
  data_type : String
  row : Nat
  column : Nat
  has_style : Bool
  formatting : Option FormattingInfo
deriving DecidableEq, Repr

structure ReadDataPayload where
  file_path : String
  sheet_name : String
  range_read : String
  cells : List (List CellInfo)
  total_rows : Nat
  total_columns : Nat
  preview_only : Bool
deriving DecidableEq, Repr

/-- Per-cell metadata record (lines 479-496). -/
def cellInfoAt (sh : Sheet) (r c : Nat) : CellInfo :=
  let cd := (sh.getCell? r c).getD {}
  { address := colLetterStr c ++ toString r,
    value := jsonOfPy cd.value,
    data_type := pyTypeName cd.value,
    row := r, column := c, has_style := cd.hasStyle,
    formatting :=
      if cd.hasStyle then
        some { font_bold := cd.font.bold, font_size := cd.font.size,
               font_color := cd.font.color,
               bg_color := some ((cd.fill.startColor).getD "00000000"),
               number_format := cd.numberFormat }
      else none }

/-- The body of `read_data_from_excel` (lines 457-520).  An inverted range
makes `cells` an empty tuple, so the `cells[0]` probe at line 473 raises
`IndexError`. -/
def read_data_from_excel_core (fs : FS) (file_path sheet_name : String)
    (start_cell : String) (end_cell : Option String) (preview_only : Bool) :
    FS × Except PyErr ReadDataPayload :=
  match getWorkbookAndSheet fs file_path (some sheet_name) false with
  | (fs1, .error e) => (fs1, .error e)
  | (fs1, .ok (wb, wsIdx?)) =>
    let fail : PyErr → FS × Except PyErr ReadDataPayload := fun e => (fs1, .error e)
    match wsIdx? with
    | none => fail (.attributeError "'NoneType' object has no attribute 'max_row'")
    | some i =>
      let sh := wb.sheetAt i
      let endCellE : Except PyErr String :=
        if truthyStr end_cell then .ok (end_cell.getD "")
        else
          match get_column_letter sh.maxCol with
          | .ok l => .ok (l ++ toString sh.maxRow)
          | .error e => .error e
      match endCellE with
      | .error e => fail e
      | .ok endc =>
        let range_str := start_cell ++ ":" ++ endc
        match colonSplit range_str with
        | [a, b] =>
          match rangeSideParse a, rangeSideParse b with
          | .ok (r1, c1), .ok (r2, c2) =>
            if r1 = 0 ∧ c1 ≤ c2 then
              fail (.valueError "Row or column values must be at least 1")
            else
              let rows := List.range' r1 (r2 + 1 - r1)
              if rows.isEmpty then fail .indexError
              else
                let grid := rows.map (fun r =>
                  (List.range' c1 (c2 + 1 - c1)).map (fun c => cellInfoAt sh r c))
                let grid := if preview_only then (grid.take 10).map (·.take 5) else grid
                (fs1, .ok { file_path := file_path, sheet_name := sheet_name,
                            range_read := range_str, cells := grid,
                            total_rows := grid.length,
                            total_columns := (grid.head?.map List.length).getD 0,
                            preview_only := preview_only })
          | .error e, _ => fail e
          | _, .error e => fail e
        | _ => fail (.valueError (range_str ++ " is not a valid coordinate or range"))

/-- The `read_data_from_excel` tool (lines 453-522). -/
def read_data_from_excel (fs : FS) (file_path sheet_name : String)
    (start_cell : String := "A1") (end_cell : Option String := none)
    (preview_only : Bool := false) : FS × Outcome ReadDataPayload :=
  wrapOutcome errEnvOnly
    (read_data_from_excel_core fs file_path sheet_name start_cell end_cell preview_only)

structure MatchRec where
  cell_address : String
  row : Nat
  column : Nat
  column_letter : String
  value : JVal
  array_row_index : Int
  array_col_index : Int
deriving DecidableEq, Repr

structure FindPayload where
  file_path : String
  sheet_name : String
  search_value : String
  search_range : Option String
  exact_match : Bool
  -- the JSON key of this field is "matches" (a Lean keyword)
  matchesList : List MatchRec
  total_matches : Nat
deriving DecidableEq, Repr

/-- Python `needle in hay`. -/
def strContains (hay needle : String) : Bool :=
  listContainsSub needle.toList hay.toList

/-- `str(cell.value) if cell.value is not None else ""` (line 673). -/
def findCellValueStr : PyVal → String
  | .pyNone => ""
  | v => pyStrOf v

/-- The body of `find_cell_by_value` (lines 649-699). -/
def find_cell_by_value_core (fs : FS) (file_path sheet_name search_value : String)
    (search_range : Option String) (exact_match : Bool) :
    FS × Except PyErr FindPayload :=
  match getWorkbookAndSheet fs file_path (some sheet_name) false with
  | (fs1, .error e) => (fs1, .error e)
  | (fs1, .ok (wb, wsIdx?)) =>
    let fail : PyErr → FS × Except PyErr FindPayload := fun e => (fs1, .error e)
    match wsIdx? with
    | none =>
        if truthyStr search_range then
          fail (.typeError "'NoneType' object is not subscriptable")
        else fail (.attributeError "'NoneType' object has no attribute 'min_row'")
    | some i =>
      let sh := wb.sheetAt i
      let coordsE : Except PyErr (List (Nat × Nat)) :=
        if truthyStr search_range then
          let rng := search_range.getD ""
          if hasColon rng then
            match colonSplit rng with
            | [a, b] =>
                match rangeSideParse a, rangeSideParse b with
                | .ok (r1, c1), .ok (r2, c2) =>
                    if r1 = 0 ∧ c1 ≤ c2 then
                      .error (.valueError "Row or column values must be at least 1")
                    else if r2 + 1 - r1 = 0 then
                      -- empty tuple: the `cells[0]` probe at line 658 raises
                      .error .indexError
                    else
                      .ok ((List.range' r1 (r2 + 1 - r1)).foldr (fun r acc =>
                        ((List.range' c1 (c2 + 1 - c1)).map (fun c => (r, c))) ++ acc) [])
                | .error e, _ => .error e
                | _, .error e => .error e
            | _ => .error (.valueError (rng ++ " is not a valid coordinate or range"))
          else
            match wsSingleRef rng with
            | .ok rc => .ok [rc]
            | .error e => .error e
        else
          .ok ((List.range' sh.minRow (sh.maxRow + 1 - sh.minRow)).foldr (fun r acc =>
            ((List.range' sh.minCol (sh.maxCol + 1 - sh.minCol)).map (fun c => (r, c))) ++ acc) [])
      match coordsE with
      | .error e => fail e
      | .ok coords =>
        let hits := coords.filter (fun rc =>
          let cv := findCellValueStr (sh.valueAt rc.1 rc.2)
          if exact_match then cv = search_value
          else strContains (pyLower cv) (pyLower search_value))
        if hits.any (fun rc => isPyDate (sh.valueAt rc.1 rc.2)) then
          fail (.typeError "Object of type datetime is not JSON serializable")
        else
          let found : List MatchRec := hits.map (fun rc =>
            { cell_address := colLetterStr rc.2 ++ toString rc.1,
              row := rc.1, column := rc.2,
              column_letter := colLetterStr rc.2,
              value := jsonOfPy (sh.valueAt rc.1 rc.2),
              array_row_index := (rc.1 : Int) - (sh.minRow : Int),
              array_col_index := (rc.2 : Int) - (sh.minCol : Int) })
          (fs1, .ok { file_path := file_path, sheet_name := sheet_name,
                      search_value := search_value, search_range := search_range,
                      exact_match := exact_match, matchesList := found,
                      total_matches := found.length })

/-- The `find_cell_by_value` tool (lines 645-701). -/
def find_cell_by_value (fs : FS) (file_path sheet_name search_value : String)
    (search_range : Option String := none) (exact_match : Bool := true) :
    FS × Outcome FindPayload :=
  wrapOutcome errEnvOnly
    (find_cell_by_value_core fs file_path sheet_name search_value search_range exact_match)

structure VfsPayload where
  status : String
  formula : String
  cell : String
  message : String
deriving DecidableEq, Repr

/-- Consume at least one uppercase letter, return the remainder. -/
def scanLetters : List Char → Option (List Char)
  | c :: rest => if isUpperAlpha c then some (rest.dropWhile isUpperAlpha) else none
  | [] => none

/-- `re.search(r'[A-Z]+[0-9]*:', s)` matched at the head of `cs`. -/
def colonRefAt (cs : List Char) : Bool :=
  match scanLetters cs with
  | some rest => (rest.dropWhile isAsciiDigit).head? = some ':'
  | none => false

/-- `re.search(r'[A-Z]+[0-9]+:[A-Z]+[0-9]+', s)` matched at the head of
`cs`. -/
def rangeRefAt (cs : List Char) : Bool :=
  match scanLetters cs with
  | some rest =>
      let digits := rest.takeWhile isAsciiDigit
      let rest2 := rest.dropWhile isAsciiDigit
      if digits = [] then false
      else
        match rest2 with
        | ':' :: rest3 =>
            match scanLetters rest3 with
            | some rest4 => rest4.takeWhile isAsciiDigit ≠ []
            | none => false
        | _ => false
  | none => false

def anySuffix (f : List Char → Bool) : List Char → Bool
  | [] => f []
  | c :: cs => f (c :: cs) || anySuffix f cs

/-- The body of `validate_formula_syntax` (lines 527-557). -/
def validate_formula_syntax_core (fs : FS) (file_path sheet_name cell formula : String) :
    FS × Except PyErr VfsPayload :=
  match getWorkbookAndSheet fs file_path (some sheet_name) false with
  | (fs1, .error e) => (fs1, .error e)
  | (fs1, .ok _) =>
    let fail : PyErr → FS × Except PyErr VfsPayload := fun e => (fs1, .error e)
    if pyStrip formula = "" then fail (.valueError "Formula cannot be empty")
    else
      let clean := lstripEq formula
      if clean = "" then fail (.valueError "Formula cannot be just an equals sign")
      else if (clean.toList.filter (· = '(')).length ≠
          (clean.toList.filter (· = ')')).length then
        fail (.valueError "Unbalanced parentheses in formula")
      else if anySuffix colonRefAt clean.toList ∧ ¬ anySuffix rangeRefAt clean.toList then
        fail (.valueError "Invalid range reference in formula")
      else
        (fs1, .ok { status := "valid", formula := "=" ++ clean, cell := cell,
                    message := "Formula syntax is valid" })

/-- The `validate_formula_syntax` tool (lines 524-564); its `except` clause
(lines 558-564) returns a status/error/formula/cell envelope. -/
def validate_formula_syntax (fs : FS) (file_path sheet_name cell formula : String) :
    FS × Outcome VfsPayload :=
  wrapOutcome (fun e => vfsErrEnv e formula cell)
    (validate_formula_syntax_core fs file_path sheet_name cell formula)

structure SheetInfo where
  max_row : Nat
  max_column : Nat
  data_range : String
  merged_cells : List String
  table_count : Nat
deriving DecidableEq, Repr

structure MetaPayload where
  file_path : String
  sheet_count : Nat
  sheet_names : List String
  active_sheet : Option String
  sheets_info : Option (List (String × SheetInfo))
deriving DecidableEq, Repr

def sheetInfoOf (sh : Sheet) : Except PyErr SheetInfo :=
  match get_column_letter sh.maxCol with
  | .error e => .error e
  | .ok l => .ok { max_row := sh.maxRow, max_column := sh.maxCol,
                   data_range := "A1:" ++ l ++ toString sh.maxRow,
                   merged_cells := sh.merged, table_count := sh.tables.length }

def sheetInfosOf : List Sheet → Except PyErr (List (String × SheetInfo))
  | [] => .ok []
  | sh :: rest =>
      match sheetInfoOf sh with
      | .error e => .error e
      | .ok si =>
          match sheetInfosOf rest with
          | .error e => .error e
          | .ok tl => .ok ((sh.name, si) :: tl)

/-- The body of `get_workbook_metadata` (lines 617-640). -/
def get_workbook_metadata_core (fs : FS) (file_path : String)
    (include_ranges : Bool) : FS × Except PyErr MetaPayload :=
  match getWorkbookAndSheet fs file_path none false with
  | (fs1, .error e) => (fs1, .error e)
  | (fs1, .ok (wb, _)) =>
    let base : MetaPayload :=
      { file_path := file_path, sheet_count := wb.sheets.length,
        sheet_names := wb.sheetnames, active_sheet := (wb.active?).map Sheet.name,
        sheets_info := none }
    if include_ranges then
      match sheetInfosOf wb.sheets with
      | .error e => (fs1, .error e)
      | .ok infos => (fs1, .ok { base with sheets_info := some infos })
    else (fs1, .ok base)

/-- The `get_workbook_metadata` tool (lines 614-642). -/
def get_workbook_metadata (fs : FS) (file_path : String)
    (include_ranges : Bool := false) : FS × Outcome MetaPayload :=
  wrapOutcome errEnvOnly (get_workbook_metadata_core fs file_path include_ranges)

theorem wrapOutcome_err_iff (envf : PyErr → List (String × JVal))
    (r : FS × Except PyErr α) (fs' : FS) (e : PyErr) (env : List (String × JVal)) :
    wrapOutcome envf r = (fs', .err e env) ↔ r = (fs', .error e) ∧ env = envf e := by
  rcases r with ⟨fs0, ex⟩
  cases ex <;> (simp [wrapOutcome]; try aesop)

theorem wrapOutcome_ok_iff (envf : PyErr → List (String × JVal))
    (r : FS × Except PyErr α) (fs' : FS) (p : α) :
    wrapOutcome envf r = (fs', .ok p) ↔ r = (fs', .ok p) := by
  rcases r with ⟨fs0, ex⟩
  cases ex <;> simp [wrapOutcome]

theorem wrapOutcome_of_error (envf : PyErr → List (String × JVal))
    (fs : FS) (e : PyErr) :
    wrapOutcome (α := α) envf (fs, .error e) = (fs, .err e (envf e)) := rfl

theorem filesLookup_filesSet_self (l : List (String × Workbook)) (fp : String)
    (wb : Workbook) : filesLookup (filesSet l fp wb) fp = some wb := by
  induction l with
  | nil => simp [filesSet, filesLookup]
  | cons hd tl ih =>
      obtain ⟨p, w⟩ := hd
      by_cases hp : p = fp
      · simp [filesSet, filesLookup, hp]
      · simp [filesSet, filesLookup, hp, ih]

theorem fsLookup_fsSet_self (fs : FS) (fp : String) (wb : Workbook) :
    fsLookup (fsSet fs fp wb) fp = some wb :=
  filesLookup_filesSet_self fs.files fp wb

/-- The path has a parent directory component and it already exists, so the
line-755 `os.makedirs` is an observable no-op. -/
def dirReady (fs : FS) (fp : String) : Prop :=
  pyDirname fp ≠ "" ∧ fs.dirs.contains (pyDirname fp) = true

theorem makedirs_ready (fs : FS) (fp : String) (h : dirReady fs fp) :
    makedirs fs (pyDirname fp) = .ok fs := by
  unfold makedirs
  rw [if_neg h.1, if_pos h.2]

theorem sheetIdxOf_eq_none (sheets : List Sheet) (sn : String)
    (h : sn ∉ sheets.map Sheet.name) : sheetIdxOf sheets sn = none := by
  induction sheets with
  | nil => rfl
  | cons s rest ih =>
      simp only [List.map_cons, List.mem_cons] at h
      push_neg at h
      simp [sheetIdxOf, Ne.symm h.1, ih h.2]

theorem listModify_concat (l : List α) (a : α) (f : α → α) :
    listModify (l ++ [a]) l.length f = l ++ [f a] := by
  induction l with
  | nil => rfl
  | cons x xs ih => simp [listModify, ih]

theorem listGetConcat (l : List α) (a : α) : (l ++ [a]).get? l.length = some a := by
  induction l with
  | nil => rfl
  | cons x xs ih => simp [List.get?, ih]

theorem sheetAt_append (wb : Workbook) (sn : String) :
    (wb.appendSheet sn).sheetAt wb.sheets.length = emptySheet sn := by
  simp [Workbook.appendSheet, Workbook.sheetAt, listGetConcat]

theorem getWAS_loaded_none_sheet (fs : FS) (fp : String) (wb : Workbook)
    (c : Bool) (hlk : fsLookup fs fp = some wb) (hdir : dirReady fs fp) :
    getWorkbookAndSheet fs fp none c = (fs, .ok (wb, none)) := by
  unfold getWorkbookAndSheet
  rw [makedirs_ready fs fp hdir]
  simp [hlk, truthyStr]

theorem getWAS_missing_sheet (fs : FS) (fp sn : String) (wb : Workbook)
    (hlk : fsLookup fs fp = some wb) (hne : sn ≠ "")
    (habs : sn ∉ wb.sheetnames) (hdir : dirReady fs fp) :
    getWorkbookAndSheet fs fp (some sn) false =
      (fs, .error (.wrappedException (.keyError sn wb.sheetnames))) := by
  unfold getWorkbookAndSheet
  rw [makedirs_ready fs fp hdir]
  simp [hlk, truthyStr, hne, Workbook.idxOf,
    sheetIdxOf_eq_none wb.sheets sn habs]

theorem getWAS_missing_sheet_create (fs : FS) (fp sn : String) (wb : Workbook)
    (hlk : fsLookup fs fp = some wb) (hne : sn ≠ "")
    (habs : sn ∉ wb.sheetnames) (hdir : dirReady fs fp) :
    getWorkbookAndSheet fs fp (some sn) true =
      (fs, .ok (wb.appendSheet sn, some wb.sheets.length)) := by
  unfold getWorkbookAndSheet
  rw [makedirs_ready fs fp hdir]
  simp [hlk, truthyStr, hne, Workbook.idxOf,
    sheetIdxOf_eq_none wb.sheets sn habs]

theorem getWAS_create_some (fs : FS) (fp sn : String) (hne : sn ≠ "")
    (hdir : dirReady fs fp) :
    ∃ wb i, getWorkbookAndSheet fs fp (some sn) true = (fs, .ok (wb, some i)) := by
  unfold getWorkbookAndSheet
  rw [makedirs_ready fs fp hdir]
  rcases hlk : fsLookup fs fp with _ | wb
  · by_cases hsheet : sn = "Sheet"
    · subst hsheet
      exact ⟨freshWorkbook, 0, by simp [hlk, truthyStr, freshWorkbook, Workbook.idxOf,
        sheetIdxOf, emptySheet]⟩
    · refine ⟨(freshWorkbook.removeActive).appendSheet sn, 0, ?_⟩
      simp [hlk, truthyStr, hne, hsheet, freshWorkbook, Workbook.removeActive,
        Workbook.idxOf, sheetIdxOf, Workbook.appendSheet, List.eraseIdx]
  · rcases hidx : wb.idxOf sn with _ | i
    · exact ⟨wb.appendSheet sn, wb.sheets.length, by simp [hlk, truthyStr, hne, hidx]⟩
    · exact ⟨wb, i, by simp [hlk, truthyStr, hne, hidx]⟩


/-- A one-workbook disk: sheet "Sheet1" at "wb/book.xlsx", with the parent
directory "wb" existing (a bare filename would instead fail the line-755
`os.makedirs('')` before reaching any handler logic). -/
def c1Fs : FS :=
  { files := [("wb/book.xlsx", { sheets := [emptySheet "Sheet1"] })],
    dirs := ["wb"] }

/-- C1: the spec scenario — `write_data_to_excel` with `[[1, "x"], [2.5, "y"]]`
at "A1" on a fresh sheet of an existing workbook (at a path whose parent
directory exists, so the line-755 makedirs passes) — does NOT succeed:
line 386 unpacks `coordinate_from_string`'s `(column, row)` result as
`(start_row, start_col)`, so `column_index_from_string` receives the row
integer and raises; the call returns an error envelope and writes nothing,
so the subsequent `read_excel` cannot observe the data and dimensions the
claim promises. -/
theorem c1_write_data_scenario_errors :
    write_data_to_excel c1Fs "wb/book.xlsx" "Sheet1"
      [[.pyInt 1, .pyStr "x"], [.pyFloat (5 / 2), .pyStr "y"]] "A1" =
      (c1Fs, .err (.attributeError "'int' object has no attribute 'upper'")
        (errEnvOnly (.attributeError "'int' object has no attribute 'upper'"))) := by
  rfl

/-- C2 counterexample: a failing `list_sheets` call — here on a missing file
at a path whose parent directory exists — returns the bare
`{"error": str(e)}` envelope of line 274 — no `error_type` key and no
`file_path`/`sheet_name` echo, contradicting the claim that every tool's
failure carries them. -/
theorem c2_counterexample :
    (list_sheets { files := [], dirs := ["wb"] } "wb/book.xlsx").2 =
      .err (.wrappedException
          (.valueError "Error loading workbook: File does not exist or is empty"))
        [("error", .s "Error in _get_workbook_and_sheet: Error loading workbook: File does not exist or is empty")] ∧
    "error_type" ∉ (list_sheets { files := [], dirs := ["wb"] } "wb/book.xlsx").2.errKeys ∧
    "file_path" ∉ (list_sheets { files := [], dirs := ["wb"] } "wb/book.xlsx").2.errKeys := by
  exact ⟨rfl, by decide, by decide⟩

/-- C2 amended: every tool's failure is a well-formed JSON object holding at
least an `error` key, but only `read_excel` and `write_excel` additionally
carry `error_type` and echo `file_path`/`sheet_name`
(`validate_formula_syntax` uses its own status/error/formula/cell shape;
the twelve remaining tools return only `{"error": str(e)}`). -/
theorem c2_amended :
    (∀ fs fp sn rng fs' e env, read_excel fs fp sn rng = (fs', .err e env) →
        env = readErrEnv e fp sn) ∧
    (∀ fs fp sn data sc pf fs' e env,
        write_excel fs fp sn data sc pf = (fs', .err e env) →
        env = writeErrEnv e fp sn) ∧
    (∀ fs fp sn cell formula fs' e env,
        validate_formula_syntax fs fp sn cell formula = (fs', .err e env) →
        env = vfsErrEnv e formula cell) ∧
    (∀ fs fp names fs' e env, create_workbook fs fp names = (fs', .err e env) →
        env = errEnvOnly e) ∧
    (∀ fs fp fs' e env, list_sheets fs fp = (fs', .err e env) → env = errEnvOnly e) ∧
    (∀ fs fp sn cols fs' e env, autofit_columns fs fp sn cols = (fs', .err e env) →
        env = errEnvOnly e) ∧
    (∀ fs fp sn sc ec fs' e env,
        format_range fs fp sn sc ec = (fs', .err e env) → env = errEnvOnly e) ∧
    (∀ fs fp sn data sc fs' e env,
        write_data_to_excel fs fp sn data sc = (fs', .err e env) →
        env = errEnvOnly e) ∧
    (∀ fs fp sn sc ec po fs' e env,
        read_data_from_excel fs fp sn sc ec po = (fs', .err e env) →
        env = errEnvOnly e) ∧
    (∀ fs fp sn fs' e env, create_worksheet fs fp sn = (fs', .err e env) →
        env = errEnvOnly e) ∧
    (∀ fs fp sn fs' e env, delete_worksheet fs fp sn = (fs', .err e env) →
        env = errEnvOnly e) ∧
    (∀ fs fp ir fs' e env, get_workbook_metadata fs fp ir = (fs', .err e env) →
        env = errEnvOnly e) ∧
    (∀ fs fp sn sv sr em fs' e env,
        find_cell_by_value fs fp sn sv sr em = (fs', .err e env) →
        env = errEnvOnly e) ∧
    (∀ fs fp sn cell formula fs' e env,
        add_formula fs fp sn cell formula = (fs', .err e env) →
        env = errEnvOnly e) ∧
    (∀ fs fp sn cell v fs' e env,
        update_single_cell fs fp sn cell v = (fs', .err e env) →
        env = errEnvOnly e) := by
  refine ⟨?_, ?_, ?_, ?_, ?_, ?_, ?_, ?_, ?_, ?_, ?_, ?_, ?_, ?_, ?_⟩ <;>
    (intros; rename_i h; exact ((wrapOutcome_err_iff _ _ _ _ _).mp h).2)

/-- C2 witness: the amended statement applied to a concrete failing
`list_sheets` call. -/
theorem c2_witness :
    [("error", JVal.s "Error in _get_workbook_and_sheet: Error loading workbook: File does not exist or is empty")] =
      errEnvOnly (.wrappedException
        (.valueError "Error loading workbook: File does not exist or is empty")) :=
  c2_amended.2.2.2.2.1 { files := [], dirs := ["wb"] } "wb/book.xlsx"
    { files := [], dirs := ["wb"] }
    (.wrappedException
      (.valueError "Error loading workbook: File does not exist or is empty"))
    [("error", JVal.s "Error in _get_workbook_and_sheet: Error loading workbook: File does not exist or is empty")]
    rfl

/-- C3 counterexample: already for a 2-by-1 `data`, the trace of
`write_excel` with `preserve_formatting=True` restores cell (0,0)'s style
before writing cell (1,0)'s value — the claimed
reads-then-writes-then-restores phase discipline is violated. -/
theorem c3_counterexample :
    phasedRWR (write_excel_events [[.pyInt 0], [.pyInt 0]] true) = false := by
  rfl

theorem readsThenPairs_readRow (ri : Nat) :
    ∀ (ci : Nat) (row : List PyVal) (rest : List WEvent),
      readsThenPairs (readRowEvents ri ci row ++ rest) = readsThenPairs rest := by
  intro ci row
  induction row generalizing ci with
  | nil => intro rest; rfl
  | cons v vs ih =>
      intro rest
      show readsThenPairs (WEvent.styleRead ri ci :: (readRowEvents ri (ci + 1) vs ++ rest)) =
        readsThenPairs rest
      rw [show readsThenPairs (WEvent.styleRead ri ci ::
        (readRowEvents ri (ci + 1) vs ++ rest)) =
        readsThenPairs (readRowEvents ri (ci + 1) vs ++ rest) from rfl]
      exact ih (ci + 1) rest

theorem readsThenPairs_reads (data : List (List PyVal)) :
    ∀ (ri : Nat) (rest : List WEvent),
      readsThenPairs (readEvents ri data ++ rest) = readsThenPairs rest := by
  induction data with
  | nil => intro ri rest; rfl
  | cons row rows ih =>
      intro ri rest
      show readsThenPairs ((readRowEvents ri 0 row ++ readEvents (ri + 1) rows) ++ rest) =
        readsThenPairs rest
      rw [List.append_assoc, readsThenPairs_readRow, ih]

theorem pairsWR_writeRow (ri : Nat) :
    ∀ (ci : Nat) (row : List PyVal) (rest : List WEvent),
      pairsWR (writeRowEvents true ri ci row ++ rest) = pairsWR rest := by
  intro ci row
  induction row generalizing ci with
  | nil => intro rest; rfl
  | cons v vs ih =>
      intro rest
      show pairsWR (WEvent.valueWrite ri ci :: WEvent.styleRestore ri ci ::
        (writeRowEvents true ri (ci + 1) vs ++ rest)) = pairsWR rest
      simp only [pairsWR]
      simp [ih (ci + 1) rest]

theorem pairsWR_writeEvents (data : List (List PyVal)) :
    ∀ ri : Nat, pairsWR (writeEvents true ri data) = true := by
  induction data with
  | nil => intro ri; rfl
  | cons row rows ih =>
      intro ri
      show pairsWR (writeRowEvents true ri 0 row ++ writeEvents true (ri + 1) rows) = true
      rw [pairsWR_writeRow]
      exact ih (ri + 1)

theorem readsThenPairs_of_pairsWR (l : List WEvent) (h : pairsWR l = true) :
    readsThenPairs l = true := by
  cases l with
  | nil => rfl
  | cons e rest =>
      cases e with
      | styleRead ri ci => simp [pairsWR] at h
      | valueWrite ri ci => exact h
      | styleRestore ri ci => exact h

/-- C3 amended: what `write_excel` actually does with
`preserve_formatting=True` — every style snapshot read precedes every value
write, and each value write is immediately followed by the SAME cell's style
restore (restores are interleaved per cell; since all snapshots were taken
before any write, no half-written state is ever used as a style source). -/
theorem c3_amended (data : List (List PyVal)) :
    readsThenPairs (write_excel_events data true) = true := by
  unfold write_excel_events
  rw [if_pos rfl, readsThenPairs_reads]
  exact readsThenPairs_of_pairsWR _ (pairsWR_writeEvents data 0)

theorem wsSingleRef_A1 : wsSingleRef "A1" = .ok (1, 1) := rfl

theorem wsSingleRef_A0 :
    wsSingleRef "A0" = .error (.valueError "Row or column values must be at least 1") := rfl

theorem pyMatchAddr_1A : pyMatchAddr "1A" = false := rfl

theorem pyMatchAddr_empty : pyMatchAddr "" = false := rfl

theorem pyMatchAddr_A0 : pyMatchAddr "A0" = true := rfl

theorem getWAS_fresh_create (fs : FS) (fp sn : String) (hlk : fsLookup fs fp = none)
    (hne : sn ≠ "") (hdir : dirReady fs fp) :
    getWorkbookAndSheet fs fp (some sn) true =
      (fs, .ok ((if sn = "Sheet" then freshWorkbook
            else { sheets := [emptySheet sn], activeIdx := 0 }), some 0)) := by
  unfold getWorkbookAndSheet
  rw [makedirs_ready fs fp hdir]
  by_cases hs : sn = "Sheet"
  · subst hs
    simp [hlk, truthyStr, freshWorkbook, Workbook.idxOf, sheetIdxOf, emptySheet]
  · simp [hlk, truthyStr, hne, hs, freshWorkbook, Workbook.removeActive,
      Workbook.idxOf, sheetIdxOf, Workbook.appendSheet, List.eraseIdx, emptySheet]

def exceptIsOk : Except ε α → Bool
  | .ok _ => true
  | .error _ => false

theorem exists_ok_of_exceptIsOk {r : Except ε α} (h : exceptIsOk r = true) :
    ∃ p, r = .ok p := by
  cases r
  · simp [exceptIsOk] at h
  · exact ⟨_, rfl⟩

theorem getWAS_create_isOk (fs : FS) (fp : String) (sno : Option String)
    (hdir : dirReady fs fp) :
    exceptIsOk (getWorkbookAndSheet fs fp sno true).2 = true := by
  unfold getWorkbookAndSheet
  rw [makedirs_ready fs fp hdir]
  repeat' split
  all_goals simp_all [exceptIsOk]
  all_goals (split <;> try rfl)
  all_goals (rename_i heq2; split at heq2 <;> simp_all)

theorem getWAS_create_fst (fs : FS) (fp : String) (sno : Option String)
    (c : Bool) (hdir : dirReady fs fp) :
    (getWorkbookAndSheet fs fp sno c).1 = fs := by
  unfold getWorkbookAndSheet
  rw [makedirs_ready fs fp hdir]
  rcases fsLookup fs fp with _ | wb <;>
    rcases sno with _ | sn <;>
      simp [truthyStr] <;>
        repeat' split
  all_goals rfl

theorem getWAS_create_ok (fs : FS) (fp : String) (sno : Option String)
    (hdir : dirReady fs fp) :
    ∃ p, getWorkbookAndSheet fs fp sno true = (fs, .ok p) := by
  obtain ⟨p, hp⟩ := exists_ok_of_exceptIsOk (getWAS_create_isOk fs fp sno hdir)
  refine ⟨p, ?_⟩
  have h1 := getWAS_create_fst fs fp sno true hdir
  rcases hgas : getWorkbookAndSheet fs fp sno true with ⟨a, b⟩
  rw [hgas] at hp h1
  rw [Prod.mk.injEq]
  exact ⟨h1, hp⟩

def c4File : FS × Outcome UpdateCellPayload :=
  update_single_cell { files := [], dirs := ["wb"] } "wb/data.txt" "Sheet1" "A1" "v"

/-- C4 counterexample: `update_single_cell` performs no extension check at
all — on the non-spreadsheet path "wb/data.txt" (whose parent directory
exists, so the line-755 makedirs passes) it succeeds and saves a file
there, contradicting both the InvalidFormat failure and the nothing-touched
guarantee of the claim. -/
theorem c4_counterexample :
    extOk "wb/data.txt" = false ∧ c4File.2.isOk = true ∧
    (fsLookup c4File.1 "wb/data.txt").isSome = true := by
  exact ⟨rfl, rfl, rfl⟩

/-- C4 amended: only `read_excel` and `write_excel` validate the extension —
each fails with its InvalidFormat `ValueError` before touching any file —
while the other operations accept any path; in particular
`update_single_cell` on an absent path whose parent directory exists
creates and saves a workbook there whatever the extension. -/
theorem c4_amended :
    (∀ fs fp sn rng, extOk fp = false →
        read_excel fs fp sn rng = (fs,
          .err (.valueError "Invalid file format. Only Excel files (.xlsx, .xls, .xlsm) are supported")
            (readErrEnv (.valueError "Invalid file format. Only Excel files (.xlsx, .xls, .xlsm) are supported") fp sn))) ∧
    (∀ fs fp sn data sc pf, extOk fp = false →
        write_excel fs fp sn data sc pf = (fs,
          .err (.valueError "Invalid file format. Only Excel files are supported")
            (writeErrEnv (.valueError "Invalid file format. Only Excel files are supported") fp sn))) ∧
    (∀ fs fp sn v, fsLookup fs fp = none → sn ≠ "" → dirReady fs fp →
        (update_single_cell fs fp sn "A1" v).2.isOk = true ∧
        (fsLookup (update_single_cell fs fp sn "A1" v).1 fp).isSome = true) := by
  refine ⟨?_, ?_, ?_⟩
  · intro fs fp sn rng h
    unfold read_excel read_excel_core
    simp [h, wrapOutcome]
  · intro fs fp sn data sc pf h
    unfold write_excel write_excel_core
    simp [h, wrapOutcome]
  · intro fs fp sn v hlk hne hdir
    unfold update_single_cell update_single_cell_core
    rw [getWAS_fresh_create fs fp sn hlk hne hdir]
    by_cases hs : sn = "Sheet" <;>
      simp [hs, wrapOutcome, Outcome.isOk, wsSingleRef_A1, fsLookup_fsSet_self]

/-- C4 witness: the amended statement applied to concrete inputs — a bad
extension rejected by `read_excel`, and `update_single_cell` creating
"wb/data.txt". -/
theorem c4_witness :
    read_excel { files := [], dirs := [] } "notes.csv" "S" none =
      ({ files := [], dirs := [] },
      .err (.valueError "Invalid file format. Only Excel files (.xlsx, .xls, .xlsm) are supported")
        (readErrEnv (.valueError "Invalid file format. Only Excel files (.xlsx, .xls, .xlsm) are supported") "notes.csv" "S")) ∧
    (update_single_cell { files := [], dirs := ["wb"] } "wb/data.txt" "Sheet1" "A1" "v").2.isOk = true :=
  ⟨c4_amended.1 { files := [], dirs := [] } "notes.csv" "S" none rfl,
   (c4_amended.2.2 { files := [], dirs := ["wb"] } "wb/data.txt" "Sheet1" "v" rfl
     (by decide) ⟨by decide, by decide⟩).1⟩

/-- C6 counterexample: with a one-sheet workbook stored at the bare path
"book.xlsx", `delete_worksheet` does NOT fail with the line-597 InvalidOperation
`ValueError` the claim promises: line 755's `os.makedirs('')` raises first,
so the call returns the wrapped `FileNotFoundError` envelope (the sheet list
is still unchanged and nothing is saved, but the error is a different one). -/
theorem c6_counterexample :
    delete_worksheet
        { files := [("book.xlsx", { sheets := [emptySheet "Sheet1"] })], dirs := [] }
        "book.xlsx" "Sheet1" =
      ({ files := [("book.xlsx", { sheets := [emptySheet "Sheet1"] })], dirs := [] },
       .err (.wrappedException
           (.fileNotFoundError "[Errno 2] No such file or directory: ''"))
         (errEnvOnly (.wrappedException
           (.fileNotFoundError "[Errno 2] No such file or directory: ''")))) := by
  rfl

/-- C6 (amended): deleting the only sheet of a workbook at a path whose
parent directory exists (so the line-755 makedirs passes) fails with the
InvalidOperation `ValueError` of line 597; no save is performed and the
on-disk sheet list is unchanged (the filesystem component of the result is
the input filesystem).  At a bare filename the call still fails with the
sheet list unchanged, but with the wrapped makedirs `FileNotFoundError`
instead. -/
theorem c6_delete_only_sheet (fs : FS) (fp sn : String) (wb : Workbook) (s : Sheet)
    (hlk : fsLookup fs fp = some wb) (hone : wb.sheets = [s]) (hname : s.name = sn)
    (hdir : dirReady fs fp) :
    delete_worksheet fs fp sn =
      (fs, .err (.valueError "Cannot delete the only worksheet in the workbook")
        (errEnvOnly (.valueError "Cannot delete the only worksheet in the workbook"))) := by
  unfold delete_worksheet delete_worksheet_core
  rw [getWAS_loaded_none_sheet fs fp wb true hlk hdir]
  have hnames : wb.sheetnames = [sn] := by
    simp [Workbook.sheetnames, hone, hname]
  simp [hnames, wrapOutcome]

/-- C6 witness: the theorem applied to a one-sheet workbook at
"wb/book.xlsx". -/
theorem c6_witness :
    delete_worksheet c1Fs "wb/book.xlsx" "Sheet1" =
      (c1Fs, .err (.valueError "Cannot delete the only worksheet in the workbook")
        (errEnvOnly (.valueError "Cannot delete the only worksheet in the workbook"))) :=
  c6_delete_only_sheet c1Fs "wb/book.xlsx" "Sheet1"
    { sheets := [emptySheet "Sheet1"] } (emptySheet "Sheet1") rfl rfl rfl
    ⟨by decide, by decide⟩

def isInvalidAddrErr : Outcome α → Bool
  | .err (.valueError m) _ => m = "Invalid start_cell format. Use format like 'A1'"
  | _ => false

/-- C7 counterexample: the start-cell validation of line 167 has no
zero-row check — "A0" matches `^[A-Z]+[0-9]+$` and sails through; the
failure that eventually surfaces comes from the document library
(`ws.cell` row bounds) with a different error, not the InvalidAddress
rejection the claim requires. -/
theorem c7_counterexample :
    pyMatchAddr "A0" = true ∧ specAddrValid "A0" = false ∧
    isInvalidAddrErr (write_excel c1Fs "wb/book.xlsx" "Sheet1" [[.pyInt 1]] "A0" true).2 = false ∧
    (write_excel c1Fs "wb/book.xlsx" "Sheet1" [[.pyInt 1]] "A0" true).2 =
      .err (.valueError "Row or column values must be at least 1")
        (writeErrEnv (.valueError "Row or column values must be at least 1")
          "wb/book.xlsx" "Sheet1") := by
  exact ⟨rfl, rfl, rfl, rfl⟩

/-- Every error `_get_workbook_and_sheet` raises leaves through the line-785
re-raise, so it is a wrapped `Exception`. -/
theorem getWAS_error_wrapped (fs : FS) (fp : String) (sno : Option String)
    (c : Bool) (fs1 : FS) (e : PyErr)
    (h : getWorkbookAndSheet fs fp sno c = (fs1, .error e)) :
    ∃ inner, e = .wrappedException inner := by
  unfold getWorkbookAndSheet at h
  simp only [] at h
  repeat' split at h
  all_goals (rw [Prod.mk.injEq] at h; obtain ⟨-, h2⟩ := h)
  all_goals first
    | (injection h2 with h3
       exact ⟨_, h3.symm⟩)
    | injection h2

/-- C7 amended: the cell-address validation is exactly the regex
`^[A-Z]+[0-9]+$` with NO nonzero check on the numeric part: "1A" and ""
are rejected with the InvalidAddress `ValueError`, while "A0" passes
validation and whatever failure follows is a different error raised later
(by the document library, or by the line-755 makedirs on a bare path). -/
theorem c7_amended :
    pyMatchAddr "1A" = false ∧ pyMatchAddr "" = false ∧ pyMatchAddr "A0" = true ∧
    specAddrValid "A0" = false ∧
    (∀ fs fp sn data pf, extOk fp = true →
      isInvalidAddrErr (write_excel fs fp sn data "1A" pf).2 = true ∧
      isInvalidAddrErr (write_excel fs fp sn data "" pf).2 = true ∧
      isInvalidAddrErr (write_excel fs fp sn data "A0" pf).2 = false) := by
  refine ⟨rfl, rfl, rfl, rfl, ?_⟩
  intro fs fp sn data pf hext
  refine ⟨?_, ?_, ?_⟩
  · unfold write_excel write_excel_core
    simp [hext, pyMatchAddr_1A, wrapOutcome, isInvalidAddrErr]
  · unfold write_excel write_excel_core
    simp [hext, pyMatchAddr_empty, wrapOutcome, isInvalidAddrErr]
  · rcases hg : getWorkbookAndSheet fs fp (some sn) true with ⟨fs1, ex⟩
    unfold write_excel write_excel_core
    rw [hg]
    cases ex with
    | error e =>
        obtain ⟨inner, rfl⟩ := getWAS_error_wrapped fs fp (some sn) true fs1 e hg
        simp [hext, pyMatchAddr_A0, wrapOutcome, isInvalidAddrErr]
    | ok p =>
        rcases p with ⟨wb, wsIdx?⟩
        cases wsIdx? <;>
          simp [hext, pyMatchAddr_A0, wsSingleRef_A0, wrapOutcome, isInvalidAddrErr]

/-- C7 witness: the amended statement applied at a concrete workbook. -/
theorem c7_witness :
    isInvalidAddrErr (write_excel c1Fs "wb/book.xlsx" "Sheet1" [[.pyInt 1]] "1A" true).2 = true :=
  (c7_amended.2.2.2.2 c1Fs "wb/book.xlsx" "Sheet1" [[.pyInt 1]] true rfl).1

theorem updateSheet_append (wb : Workbook) (sn : String) (f : Sheet → Sheet) :
    (wb.appendSheet sn).updateSheet wb.sheets.length f =
      { sheets := wb.sheets ++ [f (emptySheet sn)], activeIdx := wb.activeIdx } := by
  simp [Workbook.appendSheet, Workbook.updateSheet, listModify_concat]

/-- `openpyxl`'s on-disk sheet-name list for a saved path, as observed by a
later `load_workbook`. -/
def fsSheets (fs : FS) (fp : String) : Option (List String) :=
  (fsLookup fs fp).map Workbook.sheetnames

/-- C5 counterexample: `add_formula` is a write-like operation (it assigns
`worksheet[cell] = formula`), yet on a missing sheet it does not auto-create:
line 707 calls `_get_workbook_and_sheet` without `create_sheet=True`, so the
call fails with the wrapped `KeyError` instead of creating the sheet. -/
theorem c5_counterexample :
    add_formula c1Fs "wb/book.xlsx" "Missing" "A1" "SUM(A1:A2)" =
      (c1Fs, .err (.wrappedException (.keyError "Missing" ["Sheet1"]))
        (errEnvOnly (.wrappedException (.keyError "Missing" ["Sheet1"])))) := by
  rfl

/-- C5 (amended): on an absent sheet, the read-like operations (`read_excel`,
`read_data_from_excel`, `find_cell_by_value`, `format_range`,
`autofit_columns`) fail with the wrapped `KeyError` whose message enumerates
the available sheet names; of the write-like operations only `write_excel`
and `update_single_cell` auto-create the missing sheet (and save it), while
`write_data_to_excel` fails with an `AttributeError` before writing (line 386
coordinate swap) and `add_formula` fails with the same sheet-not-found
`KeyError` because line 707 does not request creation. -/
theorem c5_amended (fs : FS) (fp sn : String) (wb : Workbook)
    (hext : extOk fp = true) (hlk : fsLookup fs fp = some wb)
    (habs : sn ∉ wb.sheetnames) (hne : sn ≠ "") (hdir : dirReady fs fp) :
    read_excel fs fp sn none =
      (fs, .err (.wrappedException (.keyError sn wb.sheetnames))
        (readErrEnv (.wrappedException (.keyError sn wb.sheetnames)) fp sn)) ∧
    read_data_from_excel fs fp sn "A1" none false =
      (fs, .err (.wrappedException (.keyError sn wb.sheetnames))
        (errEnvOnly (.wrappedException (.keyError sn wb.sheetnames)))) ∧
    find_cell_by_value fs fp sn "x" none true =
      (fs, .err (.wrappedException (.keyError sn wb.sheetnames))
        (errEnvOnly (.wrappedException (.keyError sn wb.sheetnames)))) ∧
    format_range fs fp sn "A1" =
      (fs, .err (.wrappedException (.keyError sn wb.sheetnames))
        (errEnvOnly (.wrappedException (.keyError sn wb.sheetnames)))) ∧
    autofit_columns fs fp sn none =
      (fs, .err (.wrappedException (.keyError sn wb.sheetnames))
        (errEnvOnly (.wrappedException (.keyError sn wb.sheetnames)))) ∧
    (write_excel fs fp sn [[.pyInt 1]] "A1" true).2.isOk = true ∧
    fsSheets (write_excel fs fp sn [[.pyInt 1]] "A1" true).1 fp =
      some (wb.sheetnames ++ [sn]) ∧
    (update_single_cell fs fp sn "A1" "v").2.isOk = true ∧
    fsSheets (update_single_cell fs fp sn "A1" "v").1 fp =
      some (wb.sheetnames ++ [sn]) ∧
    write_data_to_excel fs fp sn [[.pyInt 1]] "A1" =
      (fs, .err (.attributeError "'int' object has no attribute 'upper'")
        (errEnvOnly (.attributeError "'int' object has no attribute 'upper'"))) ∧
    add_formula fs fp sn "A1" "SUM(A1:A2)" =
      (fs, .err (.wrappedException (.keyError sn wb.sheetnames))
        (errEnvOnly (.wrappedException (.keyError sn wb.sheetnames)))) := by
  refine ⟨?_, ?_, ?_, ?_, ?_, ?_, ?_, ?_, ?_, ?_, ?_⟩
  · unfold read_excel read_excel_core
    rw [getWAS_missing_sheet fs fp sn wb hlk hne habs hdir, hext]
    rfl
  · unfold read_data_from_excel read_data_from_excel_core
    rw [getWAS_missing_sheet fs fp sn wb hlk hne habs hdir]
    rfl
  · unfold find_cell_by_value find_cell_by_value_core
    rw [getWAS_missing_sheet fs fp sn wb hlk hne habs hdir]
    rfl
  · unfold format_range format_range_core
    rw [getWAS_missing_sheet fs fp sn wb hlk hne habs hdir]
    rfl
  · unfold autofit_columns autofit_columns_core
    rw [getWAS_missing_sheet fs fp sn wb hlk hne habs hdir]
    rfl
  · unfold write_excel write_excel_core
    rw [getWAS_missing_sheet_create fs fp sn wb hlk hne habs hdir, hext]
    rfl
  · unfold write_excel write_excel_core
    rw [getWAS_missing_sheet_create fs fp sn wb hlk hne habs hdir, hext]
    show fsSheets (fsSet fs fp ((wb.appendSheet sn).updateSheet wb.sheets.length _)) fp
        = some (wb.sheetnames ++ [sn])
    rw [updateSheet_append]
    simp [fsSheets, fsLookup_fsSet_self, Workbook.sheetnames]
    rw [sheetAt_append]
    rfl
  · unfold update_single_cell update_single_cell_core
    rw [getWAS_missing_sheet_create fs fp sn wb hlk hne habs hdir]
    rfl
  · unfold update_single_cell update_single_cell_core
    rw [getWAS_missing_sheet_create fs fp sn wb hlk hne habs hdir]
    show fsSheets (fsSet fs fp ((wb.appendSheet sn).updateSheet wb.sheets.length _)) fp
        = some (wb.sheetnames ++ [sn])
    rw [updateSheet_append]
    simp [fsSheets, fsLookup_fsSet_self, Workbook.sheetnames]
    rfl
  · unfold write_data_to_excel write_data_to_excel_core
    rw [getWAS_missing_sheet_create fs fp sn wb hlk hne habs hdir]
    rfl
  · unfold add_formula add_formula_core
    rw [getWAS_missing_sheet fs fp sn wb hlk hne habs hdir]
    rfl

/-- C5 witness: on `c1Fs` (only sheet "Sheet1"), targeting the absent sheet
"Other", `write_excel` succeeds and auto-creates while `add_formula` fails
with the sheet-not-found `KeyError`. -/
theorem c5_witness :
    (write_excel c1Fs "wb/book.xlsx" "Other" [[PyVal.pyInt 1]] "A1" true).2.isOk = true ∧
    add_formula c1Fs "wb/book.xlsx" "Other" "A1" "SUM(A1:A2)" =
      (c1Fs, .err (.wrappedException (.keyError "Other" ["Sheet1"]))
        (errEnvOnly (.wrappedException (.keyError "Other" ["Sheet1"])))) := by
  have h := c5_amended c1Fs "wb/book.xlsx" "Other" { sheets := [emptySheet "Sheet1"] }
    (by rfl) (by rfl) (by decide) (by decide) ⟨by decide, by decide⟩
  exact ⟨h.2.2.2.2.2.1, h.2.2.2.2.2.2.2.2.2.2⟩

/-- C8 counterexample: at the bare fresh path "new.xlsx", `create_workbook`
succeeds (`workbook.save` writes into the current directory), but the
subsequent `list_sheets` does not return the sheet names: line 755's
`os.makedirs(os.path.dirname("new.xlsx"))` is `os.makedirs('')`, which
raises `FileNotFoundError`, wrapped at line 785 — so the create-then-list
round trip of the claim fails although the create succeeded. -/
theorem c8_counterexample :
    (create_workbook { files := [], dirs := [] } "new.xlsx"
        (some ["Sheet1", "Data"])).2 =
      .ok { status := "success", file_path := "new.xlsx",
            sheets_created := ["Sheet1", "Data"] } ∧
    (list_sheets (create_workbook { files := [], dirs := [] } "new.xlsx"
        (some ["Sheet1", "Data"])).1 "new.xlsx").2 =
      .err (.wrappedException
          (.fileNotFoundError "[Errno 2] No such file or directory: ''"))
        (errEnvOnly (.wrappedException
          (.fileNotFoundError "[Errno 2] No such file or directory: ''"))) := by
  exact ⟨rfl, rfl⟩

/-- C8 (amended): at a fresh path whose parent directory exists,
`create_workbook` with sheet_names `["Sheet1", "Data"]` succeeds and
`list_sheets` on the saved path returns exactly `["Sheet1", "Data"]`, in
that order and nothing else; at a bare filename the create succeeds (saving
into the current directory) but `list_sheets` — like every other tool, all
of which route through `_get_workbook_and_sheet` — fails on the line-755
`os.makedirs('')` `FileNotFoundError`. -/
theorem c8_create_then_list (fs : FS) (fp : String)
    (h : fsLookup fs fp = none) (hdir : dirReady fs fp) :
    (create_workbook fs fp (some ["Sheet1", "Data"])).2 =
      .ok { status := "success", file_path := fp,
            sheets_created := ["Sheet1", "Data"] } ∧
    (list_sheets (create_workbook fs fp (some ["Sheet1", "Data"])).1 fp).2 =
      .ok { file_path := fp, sheets := ["Sheet1", "Data"] } := by
  have hcw : create_workbook fs fp (some ["Sheet1", "Data"]) =
      (fsSet fs fp (createSheetsAt freshWorkbook.removeActive 0 ["Sheet1", "Data"]),
       .ok { status := "success", file_path := fp,
             sheets_created := ["Sheet1", "Data"] }) := by
    unfold create_workbook create_workbook_core
    rw [h]
    simp only []
    rw [if_pos (Or.inr hdir.2)]
    rfl
  rw [hcw]
  refine ⟨rfl, ?_⟩
  unfold list_sheets list_sheets_core
  rw [getWAS_loaded_none_sheet _ fp _ false (fsLookup_fsSet_self fs fp _) hdir]
  rfl

/-- C8 witness: the scenario at path "wb/new.xlsx" with the directory "wb"
existing on an otherwise empty disk. -/
theorem c8_witness :
    (create_workbook { files := [], dirs := ["wb"] } "wb/new.xlsx"
        (some ["Sheet1", "Data"])).2 =
      .ok { status := "success", file_path := "wb/new.xlsx",
            sheets_created := ["Sheet1", "Data"] } ∧
    (list_sheets (create_workbook { files := [], dirs := ["wb"] } "wb/new.xlsx"
        (some ["Sheet1", "Data"])).1 "wb/new.xlsx").2 =
      .ok { file_path := "wb/new.xlsx", sheets := ["Sheet1", "Data"] } :=
  c8_create_then_list { files := [], dirs := ["wb"] } "wb/new.xlsx" (by rfl)
    ⟨by decide, by decide⟩

/-- The workbook `write_excel` persists when called with `data = []` on a
fresh path: `Workbook()` (whose default sheet is "Sheet"), possibly replaced
by a created sheet named `sn`, with `worksheet[start_cell]` having
materialised cell (1, 1). -/
def c9SavedWb (sn : String) : Workbook :=
  let base : Workbook :=
    if sn = "Sheet" then freshWorkbook
    else { sheets := [emptySheet sn], activeIdx := 0 }
  base.updateSheet 0 (fun _ => (base.sheetAt 0).touchCell 1 1)

/-- C9 counterexample: at the bare extension-valid fresh path "book.xlsx",
`write_excel` with `data = []` performs NO save at all — line 755's
`os.makedirs('')` raises inside `_get_workbook_and_sheet` before any
workbook is created — so the state IS unchanged on error there, contradicting
the claim's save-then-fail behaviour for every valid path. -/
theorem c9_counterexample :
    write_excel { files := [], dirs := [] } "book.xlsx" "Data" [] "A1" true =
      ({ files := [], dirs := [] },
       .err (.wrappedException
           (.fileNotFoundError "[Errno 2] No such file or directory: ''"))
         (writeErrEnv (.wrappedException
             (.fileNotFoundError "[Errno 2] No such file or directory: ''"))
           "book.xlsx" "Data")) := by
  rfl

/-- C9 (amended): `write_excel` with `data = []` on a fresh valid path whose
parent directory exists saves the workbook to disk (line 223 runs, creating
the file) and only then raises `IndexError` computing `end_cell` from
`data[0]` (line 232), so the Failure envelope coexists with a completed,
persisted save; on a bare filename the call instead fails in
`_get_workbook_and_sheet` with nothing saved. -/
theorem c9_empty_data_saves_then_fails (fs : FS) (fp sn : String)
    (hext : extOk fp = true) (hne : sn ≠ "") (hlk : fsLookup fs fp = none)
    (hdir : dirReady fs fp) :
    write_excel fs fp sn [] "A1" true =
      (fsSet fs fp (c9SavedWb sn),
       .err .indexError (writeErrEnv .indexError fp sn)) ∧
    fsLookup (fsSet fs fp (c9SavedWb sn)) fp = some (c9SavedWb sn) := by
  refine ⟨?_, fsLookup_fsSet_self fs fp _⟩
  unfold write_excel write_excel_core c9SavedWb
  rw [getWAS_fresh_create fs fp sn hlk hne hdir, hext]
  by_cases hs : sn = "Sheet"
  · rw [if_pos hs]
    rfl
  · rw [if_neg hs]
    rfl

/-- C9 witness: the empty-data write at "wb/book.xlsx", sheet "Data", with
the directory "wb" existing on an otherwise empty disk. -/
theorem c9_witness :
    write_excel { files := [], dirs := ["wb"] } "wb/book.xlsx" "Data" [] "A1" true =
      (fsSet { files := [], dirs := ["wb"] } "wb/book.xlsx" (c9SavedWb "Data"),
       .err .indexError (writeErrEnv .indexError "wb/book.xlsx" "Data")) ∧
    fsLookup (fsSet { files := [], dirs := ["wb"] } "wb/book.xlsx" (c9SavedWb "Data"))
        "wb/book.xlsx" = some (c9SavedWb "Data") :=
  c9_empty_data_saves_then_fails { files := [], dirs := ["wb"] } "wb/book.xlsx" "Data"
    (by rfl) (by decide) (by rfl) ⟨by decide, by decide⟩

theorem jsonOfPy_cellPyRender_ne_null (v : PyVal) :
    jsonOfPy (cellPyRender v) ≠ JVal.null := by
  cases v <;> simp [cellPyRender, jsonOfPy]

theorem mkReadPayload_no_null (fp sn rng : String) (m : Nat)
    (dataRaw : List (List PyVal)) (res : ReadPayload)
    (hok : mkReadPayload fp sn rng m dataRaw = .ok res)
    (hnn : ∀ row ∈ dataRaw, ∀ v ∈ row, jsonOfPy v ≠ JVal.null) :
    ∀ row ∈ res.data, ∀ x ∈ row, x ≠ JVal.null := by
  unfold mkReadPayload at hok
  split at hok
  · exact absurd hok (by simp)
  · rw [Except.ok.injEq] at hok
    subst hok
    intro row hrow x hx
    simp only [List.mem_map] at hrow
    obtain ⟨r0, hr0, rfl⟩ := hrow
    simp only [List.mem_map] at hx
    obtain ⟨v, hv, rfl⟩ := hx
    exact hnn r0 hr0 v hv

/-- C10: every successful `read_excel` returns a data array with no null
entries; a stored `None` is rendered as the empty string by the
`cell.value if cell.value is not None else ""` idiom (lines 70, 72, 76,
114) before serialisation, so every cell contributes a non-null entry. -/
theorem c10_success_data_no_null (fs fs' : FS) (fp sn : String)
    (rng? : Option String) (res : ReadPayload)
    (hok : read_excel fs fp sn rng? = (fs', .ok res)) :
    (∀ row ∈ res.data, ∀ x ∈ row, x ≠ JVal.null) ∧
    cellPyRender .pyNone = .pyStr "" := by
  refine ⟨?_, rfl⟩
  unfold read_excel at hok
  rw [wrapOutcome_ok_iff] at hok
  unfold read_excel_core at hok
  simp only [] at hok
  repeat' split at hok
  all_goals rw [Prod.mk.injEq] at hok
  all_goals obtain ⟨-, h2⟩ := hok
  all_goals
    first
      | exact absurd h2 (by simp)
      | (refine mkReadPayload_no_null _ _ _ _ _ res h2 ?_
         intro row hrow v hv
         simp only [List.mem_map, List.mem_singleton] at hrow
         first
           | (rcases hrow with ⟨a, -, rfl⟩
              simp only [List.mem_map] at hv
              rcases hv with ⟨w, -, rfl⟩
              exact jsonOfPy_cellPyRender_ne_null _)
           | (subst hrow
              simp only [List.mem_singleton] at hv
              subst hv
              exact jsonOfPy_cellPyRender_ne_null _))

/-- A one-cell workbook: sheet "S" with `1` stored at A1, at a path whose
parent directory exists. -/
def c10Sheet : Sheet :=
  { name := "S", cells := [((1, 1), { value := PyVal.pyInt 1 })] }

def c10Fs : FS :=
  { files := [("wb/b.xlsx", { sheets := [c10Sheet] })], dirs := ["wb"] }

/-- The payload `read_excel` returns on `c10Fs` with no range. -/
def c10Res : ReadPayload where
  file_path := "wb/b.xlsx"
  sheet_name := "S"
  range_read := "A1:A1"
  data := [[JVal.num 1]]
  dimensions := "1 rows x 1 columns"
  total_cells := 1
  row_offset := 0

/-- C10 witness: reading a one-cell sheet yields data `[[1]]` whose sole
entry is not null, and `None` renders as `""`. -/
theorem c10_witness :
    JVal.num 1 ≠ JVal.null ∧ cellPyRender .pyNone = .pyStr "" := by
  have h := c10_success_data_no_null c10Fs c10Fs "wb/b.xlsx" "S" none c10Res
    (by decide)
  exact ⟨h.1 [JVal.num 1] (List.Mem.head _) (JVal.num 1) (List.Mem.head _), h.2⟩
